import Mathlib

/-!
# SVG scene library: a verification development

A shallow embedding of `src/svg_lib.cpp` (namespace `Svg`): the numeric
formatter `DoubleToString`, `Color` and `ColorToString`, the shared style
properties `SvgObjectTemplate`, the shapes `Circle`, `Polyline`, `Text`, and
`Document`; and, under `Svg.Header`, of the `Render` members of `src/svg_lib.h`.

Modelling conventions.
* A `std::ostream` is the string of characters written to it so far; every
  `Render` takes the stream and returns it extended (`os << s` is `os ++ s`).
  The stream carries its default formatting flags.
* A `double` is an IEEE-754 binary64 datum given by sign, integer mantissa and
  binary exponent; no floating-point arithmetic is performed by the library,
  only comparison, truncation to `int` and decimal printing, all of which are
  exact integer computations on that datum.
* `std::to_string(int)` is the signed decimal numeral; `std::to_string(double)`
  is `printf("%f")`: the value rounded to six fractional digits.
* `uint8_t` channels are `Fin 256`, the `uint32_t` font size is `Fin 2^32`.
* A setter assigns the member of the receiver and returns the receiver by value;
  it is the function from the receiver to the returned object.
* To quantify over the setters of a class, a call of a setter with its argument
  is a value of `StyleCall`, `CircleCall` or `TextCall`.
-/

namespace Svg

/-! ## The type `double` -/

/-- An IEEE-754 binary64 datum.  `finite s m e` denotes `(-1)^s * m * 2^e`. -/
inductive Double where
  | finite (sign : Bool) (mant : Nat) (exp : Int)
  | inf (sign : Bool)
  | nan
  deriving DecidableEq

namespace Double

/-- The data that really are binary64 values: a mantissa of at most 53 bits and
an exponent in the range of the format. -/
def IsBinary64 : Double → Prop
  | finite _ m e => m < 2 ^ 53 ∧ -1074 ≤ e ∧ e ≤ 971
  | inf _ => True
  | nan => True

instance (d : Double) : Decidable d.IsBinary64 := by
  cases d <;> unfold IsBinary64 <;> infer_instance

/-- The `double` an `int` converts to (exact for every 32-bit integer). -/
def ofInt (i : Int) : Double := finite (decide (i < 0)) i.natAbs 0

/-- The signed mantissa of a finite datum. -/
def signed (s : Bool) (m : Nat) : Int := if s then -(m : Int) else (m : Int)

/-- IEEE comparison `a == b`: equal values (so `-0.0 == 0.0`), infinities of
the same sign; a NaN equals nothing. -/
def eq : Double → Double → Bool
  | finite s₁ m₁ e₁, finite s₂ m₂ e₂ =>
      let e₀ := min e₁ e₂
      decide (signed s₁ m₁ * 2 ^ (e₁ - e₀).toNat = signed s₂ m₂ * 2 ^ (e₂ - e₀).toNat)
  | inf s₁, inf s₂ => s₁ == s₂
  | _, _ => false

/-- The value with its fractional part discarded (rounding toward zero);
`none` for an infinity or a NaN. -/
def trunc : Double → Option Int
  | finite s m e =>
      some (signed s (if 0 ≤ e then m * 2 ^ e.toNat else m / 2 ^ (-e).toNat))
  | inf _ => none
  | nan => none

/-- The datum is finite and its value is the integer `t`; so the value is
integral, `f == floor(f)`, exactly when it denotes some `t`. -/
def Denotes : Double → Int → Prop
  | finite s m e, t =>
      if 0 ≤ e then signed s m * 2 ^ e.toNat = t else signed s m = t * 2 ^ (-e).toNat
  | inf _, _ => False
  | nan, _ => False

instance (d : Double) (t : Int) : Decidable (d.Denotes t) := by
  cases d <;> unfold Denotes <;> infer_instance

/-- The datum is the binary64 value nearest to the positive decimal `num / den`,
in normalised form: within half a unit in the last place of it.  This is the
value a literal written as that decimal has. -/
def IsLiteral : Double → Nat → Nat → Prop
  | finite s m e, num, den =>
      s = false ∧ 2 ^ 52 ≤ m ∧ m < 2 ^ 53 ∧ e < 0
        ∧ 2 * ((m : Int) * den - num * 2 ^ (-e).toNat).natAbs ≤ den
  | inf _, _, _ => False
  | nan, _, _ => False

instance (d : Double) (num den : Nat) : Decidable (d.IsLiteral num den) := by
  cases d <;> unfold IsLiteral <;> infer_instance

end Double

/-- The least value of a 32-bit `int`. -/
def INT_MIN : Int := -2147483648

/-- The greatest value of a 32-bit `int`. -/
def INT_MAX : Int := 2147483647

/-- The conversion `static_cast<int>(num)`: truncation toward zero.  When the
truncated value does not fit an `int` (or `num` is an infinity or a NaN) the
conversion is undefined in C++; it is given the value x86-64 produces,
`INT_MIN`. -/
def static_cast_int (num : Double) : Int :=
  match num.trunc with
  | some t => if INT_MIN ≤ t ∧ t ≤ INT_MAX then t else INT_MIN
  | none => INT_MIN

/-- The function `std::to_string(int)`: the decimal numeral, with a leading `-` when
negative. -/
def to_string_int (i : Int) : String :=
  if i < 0 then "-" ++ Nat.repr i.natAbs else Nat.repr i.natAbs

/-- Round the fraction `n / d` to the nearest integer, ties to even. -/
def roundHalfEven (n d : Nat) : Nat :=
  let q := n / d
  let r := n % d
  if d < 2 * r ∨ (2 * r = d ∧ q % 2 = 1) then q + 1 else q

/-- Six decimal digits of `k`, zero-padded on the left. -/
def pad6 (k : Nat) : String :=
  String.mk (List.replicate (6 - (Nat.repr k).length) '0') ++ Nat.repr k

/-- The function `std::to_string(double)`, that is `printf("%f")`: sign, integer part, a
decimal point and exactly six fractional digits of the value rounded to the
nearest multiple of `10^-6`. -/
def to_string_double : Double → String
  | Double.finite s m e =>
      let q := if 0 ≤ e then m * 10 ^ 6 * 2 ^ e.toNat
               else roundHalfEven (m * 10 ^ 6) (2 ^ (-e).toNat)
      (if s then "-" else "") ++ Nat.repr (q / 10 ^ 6) ++ "." ++ pad6 (q % 10 ^ 6)
  | Double.inf s => (if s then "-" else "") ++ "inf"
  | Double.nan => "nan"

/-! ## Points and colours -/

/-- The struct `Svg::Point`. -/
structure Point where
  x : Double := Double.ofInt 0
  y : Double := Double.ofInt 0
  deriving DecidableEq

/-- The struct `Svg::Rgb`, three `uint8_t` channels. -/
structure Rgb where
  red : Fin 256 := 255
  green : Fin 256 := 255
  blue : Fin 256 := 255
  deriving DecidableEq

/-- The alternatives of `std::variant<Rgb, std::string>`. -/
inductive ColorVariant where
  | rgb (c : Rgb)
  | string (s : String)
  deriving DecidableEq

/-- The struct `Svg::Color`; the default constructor holds the string `none`. -/
structure Color where
  _color : ColorVariant := ColorVariant.string "none"
  deriving DecidableEq

/-- The constructors `Color(const std::string)` and `Color(const char*)`. -/
def Color.ofString (color : String) : Color := { _color := ColorVariant.string color }

/-- The constructor `Color(const Rgb)`. -/
def Color.ofRgb (rgb : Rgb) : Color := { _color := ColorVariant.rgb rgb }

/-- The function `Svg::DoubleToString`. -/
def DoubleToString (num : Double) : String :=
  if Double.eq num (Double.ofInt (static_cast_int num)) then
    to_string_int (static_cast_int num)
  else
    to_string_double num

/-- The function `Svg::ColorToString`; a `uint8_t` channel is promoted to `int` by
`std::to_string`. -/
def ColorToString (color : Color) : String :=
  match color._color with
  | ColorVariant.string s => s
  | ColorVariant.rgb c =>
      "rgb(" ++ to_string_int (Int.ofNat c.red.val) ++ "," ++
        to_string_int (Int.ofNat c.green.val) ++ "," ++
        to_string_int (Int.ofNat c.blue.val) ++ ")"

/-- The constant `Svg::NoneColor`. -/
def NoneColor : Color := {}

/-! ## Style properties shared by every shape -/

/-- The data members of the class template `SvgObjectTemplate<D>`. -/
structure SvgObjectTemplate where
  fill_color : Color := NoneColor
  stroke_color : Color := NoneColor
  stroke_width : Double := Double.ofInt 1
  stroke_linecap : Option String := none
  stroke_linejoin : Option String := none
  deriving DecidableEq

namespace SvgObjectTemplate

/-- The setter `SetFillColor`: assigns the member; the derived object is returned by value. -/
def SetFillColor (self : SvgObjectTemplate) (colour : Color := NoneColor) :
    SvgObjectTemplate :=
  { self with fill_color := colour }

/-- The setter `SetStrokeColor`. -/
def SetStrokeColor (self : SvgObjectTemplate) (colour : Color := NoneColor) :
    SvgObjectTemplate :=
  { self with stroke_color := colour }

/-- The setter `SetStrokeWidth`. -/
def SetStrokeWidth (self : SvgObjectTemplate) (width : Double := Double.ofInt 1) :
    SvgObjectTemplate :=
  { self with stroke_width := width }

/-- The setter `SetStrokeLineCap`. -/
def SetStrokeLineCap (self : SvgObjectTemplate) (str : String) : SvgObjectTemplate :=
  { self with stroke_linecap := some str }

/-- The setter `SetStrokeLineJoin`. -/
def SetStrokeLineJoin (self : SvgObjectTemplate) (str : String) : SvgObjectTemplate :=
  { self with stroke_linejoin := some str }

/-- The member `SvgObjectTemplate::Render`: the style fragment written to `os`. -/
def Render (self : SvgObjectTemplate) (os : String) : String :=
  let os := os ++ "fill=\"" ++ ColorToString self.fill_color ++ "\" "
    ++ "stroke=\"" ++ ColorToString self.stroke_color ++ "\" "
    ++ "stroke-width=\"" ++ DoubleToString self.stroke_width ++ "\" "
  let os := match self.stroke_linecap with
    | some v => os ++ "stroke-linecap=\"" ++ v ++ "\" "
    | none => os ++ ""
  let os := match self.stroke_linejoin with
    | some v => os ++ "stroke-linejoin=\"" ++ v ++ "\" "
    | none => os ++ ""
  os

end SvgObjectTemplate

/-! ## Shapes -/

/-- The class `Svg::Circle`. -/
structure Circle extends SvgObjectTemplate where
  _center : Point := {}
  _radius : Double := Double.ofInt 1
  deriving DecidableEq

namespace Circle

/-- Inherited `SetFillColor`, returning the `Circle`. -/
def SetFillColor (self : Circle) (colour : Color := NoneColor) : Circle :=
  { self with toSvgObjectTemplate := self.toSvgObjectTemplate.SetFillColor colour }

/-- Inherited `SetStrokeColor`. -/
def SetStrokeColor (self : Circle) (colour : Color := NoneColor) : Circle :=
  { self with toSvgObjectTemplate := self.toSvgObjectTemplate.SetStrokeColor colour }

/-- Inherited `SetStrokeWidth`. -/
def SetStrokeWidth (self : Circle) (width : Double := Double.ofInt 1) : Circle :=
  { self with toSvgObjectTemplate := self.toSvgObjectTemplate.SetStrokeWidth width }

/-- Inherited `SetStrokeLineCap`. -/
def SetStrokeLineCap (self : Circle) (str : String) : Circle :=
  { self with toSvgObjectTemplate := self.toSvgObjectTemplate.SetStrokeLineCap str }

/-- Inherited `SetStrokeLineJoin`. -/
def SetStrokeLineJoin (self : Circle) (str : String) : Circle :=
  { self with toSvgObjectTemplate := self.toSvgObjectTemplate.SetStrokeLineJoin str }

/-- The setter `Circle::SetCenter`. -/
def SetCenter (self : Circle) (center : Point := {}) : Circle :=
  { self with _center := center }

/-- The setter `Circle::SetRadius`. -/
def SetRadius (self : Circle) (radius : Double := Double.ofInt 1) : Circle :=
  { self with _radius := radius }

/-- The member `Circle::Render`. -/
def Render (self : Circle) (os : String) : String :=
  let os := os ++ "<circle " ++ "cx=\"" ++ DoubleToString self._center.x ++ "\" "
    ++ "cy=\"" ++ DoubleToString self._center.y ++ "\" "
    ++ "r=\"" ++ DoubleToString self._radius ++ "\" "
  let os := self.toSvgObjectTemplate.Render os ++ "/>"
  os

end Circle

/-- The class `Svg::Polyline`. -/
structure Polyline extends SvgObjectTemplate where
  vertexes : List Point := []
  deriving DecidableEq

namespace Polyline

/-- Inherited `SetFillColor`, returning the `Polyline`. -/
def SetFillColor (self : Polyline) (colour : Color := NoneColor) : Polyline :=
  { self with toSvgObjectTemplate := self.toSvgObjectTemplate.SetFillColor colour }

/-- Inherited `SetStrokeColor`. -/
def SetStrokeColor (self : Polyline) (colour : Color := NoneColor) : Polyline :=
  { self with toSvgObjectTemplate := self.toSvgObjectTemplate.SetStrokeColor colour }

/-- Inherited `SetStrokeWidth`. -/
def SetStrokeWidth (self : Polyline) (width : Double := Double.ofInt 1) : Polyline :=
  { self with toSvgObjectTemplate := self.toSvgObjectTemplate.SetStrokeWidth width }

/-- Inherited `SetStrokeLineCap`. -/
def SetStrokeLineCap (self : Polyline) (str : String) : Polyline :=
  { self with toSvgObjectTemplate := self.toSvgObjectTemplate.SetStrokeLineCap str }

/-- Inherited `SetStrokeLineJoin`. -/
def SetStrokeLineJoin (self : Polyline) (str : String) : Polyline :=
  { self with toSvgObjectTemplate := self.toSvgObjectTemplate.SetStrokeLineJoin str }

/-- The member `Polyline::AddPoint`: `vertexes.push_back(point)`. -/
def AddPoint (self : Polyline) (point : Point) : Polyline :=
  { self with vertexes := self.vertexes ++ [point] }

/-- The member `Polyline::GetVertexes`: the range-for loop appending to `points`. -/
def GetVertexes (self : Polyline) : String :=
  self.vertexes.foldl
    (fun points p => points ++ (DoubleToString p.x ++ ", " ++ DoubleToString p.y ++ " ")) ""

/-- The member `Polyline::Render`. -/
def Render (self : Polyline) (os : String) : String :=
  let os := os ++ "<polyline " ++ "points=\"" ++ self.GetVertexes ++ "\" "
  let os := self.toSvgObjectTemplate.Render os ++ "/>"
  os

end Polyline

/-- The class `Svg::Text`; `font_size` is a `uint32_t`. -/
structure Text extends SvgObjectTemplate where
  text : String := ""
  reference_point : Point := {}
  _offset : Point := {}
  font_size : Fin 4294967296 := 1
  _font_family : Option String := none
  deriving DecidableEq

namespace Text

/-- Inherited `SetFillColor`, returning the `Text`. -/
def SetFillColor (self : Text) (colour : Color := NoneColor) : Text :=
  { self with toSvgObjectTemplate := self.toSvgObjectTemplate.SetFillColor colour }

/-- Inherited `SetStrokeColor`. -/
def SetStrokeColor (self : Text) (colour : Color := NoneColor) : Text :=
  { self with toSvgObjectTemplate := self.toSvgObjectTemplate.SetStrokeColor colour }

/-- Inherited `SetStrokeWidth`. -/
def SetStrokeWidth (self : Text) (width : Double := Double.ofInt 1) : Text :=
  { self with toSvgObjectTemplate := self.toSvgObjectTemplate.SetStrokeWidth width }

/-- Inherited `SetStrokeLineCap`. -/
def SetStrokeLineCap (self : Text) (str : String) : Text :=
  { self with toSvgObjectTemplate := self.toSvgObjectTemplate.SetStrokeLineCap str }

/-- Inherited `SetStrokeLineJoin`. -/
def SetStrokeLineJoin (self : Text) (str : String) : Text :=
  { self with toSvgObjectTemplate := self.toSvgObjectTemplate.SetStrokeLineJoin str }

/-- The setter `Text::SetPoint`. -/
def SetPoint (self : Text) (point : Point := {}) : Text :=
  { self with reference_point := point }

/-- The setter `Text::SetOffset`. -/
def SetOffset (self : Text) (offset : Point := {}) : Text :=
  { self with _offset := offset }

/-- The setter `Text::SetFontSize`. -/
def SetFontSize (self : Text) (size : Fin 4294967296 := 1) : Text :=
  { self with font_size := size }

/-- The setter `Text::SetFontFamily`. -/
def SetFontFamily (self : Text) (font : String) : Text :=
  { self with _font_family := some font }

/-- The setter `Text::SetData`. -/
def SetData (self : Text) (data : String) : Text :=
  { self with text := data }

/-- The member `Text::Render`; `os << font_size` prints the unsigned decimal numeral. -/
def Render (self : Text) (os : String) : String :=
  let os := os ++ "<text " ++ "x=\"" ++ DoubleToString self.reference_point.x ++ "\" "
    ++ "y=\"" ++ DoubleToString self.reference_point.y ++ "\" "
    ++ "dx=\"" ++ DoubleToString self._offset.x ++ "\" "
    ++ "dy=\"" ++ DoubleToString self._offset.y ++ "\" "
    ++ "font-size=\"" ++ Nat.repr self.font_size.val ++ "\" "
  let os := match self._font_family with
    | some v => os ++ "font-family=\"" ++ v ++ "\" "
    | none => os ++ ""
  let os := self.toSvgObjectTemplate.Render os ++ ">" ++ self.text ++ "</text>"
  os

end Text

/-! ## The document -/

/-- The abstract class `Svg::SvgObject` with its three implementations; the virtual
call `Render` dispatches on the dynamic type. -/
inductive SvgObject where
  | circle (c : Circle)
  | polyline (p : Polyline)
  | text (t : Text)
  deriving DecidableEq

/-- The virtual member `SvgObject::Render`. -/
def SvgObject.Render : SvgObject → String → String
  | SvgObject.circle c, os => c.Render os
  | SvgObject.polyline p, os => p.Render os
  | SvgObject.text t, os => t.Render os

/-- The class `Svg::Document`: the vector of owned objects. -/
structure Document where
  svg_objects : List SvgObject := []
  deriving DecidableEq

namespace Document

/-- The member `Document::Add`: `svg_objects.push_back` of a copy of the argument. -/
def Add (self : Document) (svg_obj : SvgObject) : Document :=
  { svg_objects := self.svg_objects ++ [svg_obj] }

/-- The member `Document::Render`: prolog, root-open tag, every object in index order,
root-close tag. -/
def Render (self : Document) (os : String) : String :=
  let os := os ++ "<?xml version=\"1.0\" encoding=\"UTF-8\" ?>" ++ "\n"
    ++ "<svg xmlns=\"http://www.w3.org/2000/svg\" version=\"1.1\">" ++ "\n"
  let os := self.svg_objects.foldl (fun os obj => obj.Render os) os
  os ++ "</svg>"

end Document

/-! ## The header implementation `src/svg_lib.h`

The header declares the same namespace with the same data members; its `Render`
members write every `double` with `operator<<` of the standard library instead
of `DoubleToString`.  That operator is not code of the library: it is the
parameter `put_double` of the definitions below.  `ColorToString` of the header
is, character for character, the function embedded above. -/

namespace Header

/-- The data members of the class template `SvgObjectCoomonProp<D>`. -/
structure SvgObjectCoomonProp where
  fill_color : Color := NoneColor
  stroke_color : Color := NoneColor
  stroke_width : Double := Double.ofInt 1
  stroke_linecap : Option String := none
  stroke_linejoin : Option String := none
  deriving DecidableEq

/-- The member `SvgObjectCoomonProp<D>::Render`. -/
def SvgObjectCoomonProp.Render (put_double : Double → String) (self : SvgObjectCoomonProp)
    (os : String) : String :=
  let os := os ++ "fill=\"" ++ ColorToString self.fill_color ++ "\" "
    ++ "stroke=\"" ++ ColorToString self.stroke_color ++ "\" "
    ++ "stroke-width=\"" ++ put_double self.stroke_width ++ "\" "
  let os := match self.stroke_linecap with
    | some v => os ++ "stroke-linecap=\"" ++ v ++ "\" "
    | none => os
  let os := match self.stroke_linejoin with
    | some v => os ++ "stroke-linejoin=\"" ++ v ++ "\" "
    | none => os
  os

/-- The class `Circle` of the header. -/
structure Circle extends SvgObjectCoomonProp where
  _center : Point := {}
  _radius : Double := Double.ofInt 1
  deriving DecidableEq

/-- The member `Circle::Render` of the header. -/
def Circle.Render (put_double : Double → String) (self : Circle) (os : String) : String :=
  let os := os ++ "<circle " ++ "cx=\"" ++ put_double self._center.x ++ "\" "
    ++ "cy=\"" ++ put_double self._center.y ++ "\" "
    ++ "r=\"" ++ put_double self._radius ++ "\" "
  let os := self.toSvgObjectCoomonProp.Render put_double os ++ "/>"
  os

/-- The class `Polyline` of the header. -/
structure Polyline extends SvgObjectCoomonProp where
  vertexes : List Point := []
  deriving DecidableEq

/-- The member `Polyline::AddPoint` of the header. -/
def Polyline.AddPoint (self : Polyline) (point : Point) : Polyline :=
  { self with vertexes := self.vertexes ++ [point] }

/-- The member `Polyline::GetVertexes` of the header: it writes to the stream. -/
def Polyline.GetVertexes (put_double : Double → String) (self : Polyline) (os : String) :
    String :=
  self.vertexes.foldl (fun os p => os ++ put_double p.x ++ "," ++ put_double p.y ++ " ") os

/-- The member `Polyline::Render` of the header. -/
def Polyline.Render (put_double : Double → String) (self : Polyline) (os : String) :
    String :=
  let os := os ++ "<polyline " ++ "points=\""
  let os := self.GetVertexes put_double os ++ "\" "
  let os := self.toSvgObjectCoomonProp.Render put_double os ++ "/>"
  os

/-- The class `Text` of the header. -/
structure Text extends SvgObjectCoomonProp where
  text : String := ""
  reference_point : Point := {}
  _offset : Point := {}
  font_size : Fin 4294967296 := 1
  _font_family : Option String := none
  deriving DecidableEq

/-- The member `Text::Render` of the header. -/
def Text.Render (put_double : Double → String) (self : Text) (os : String) : String :=
  let os := os ++ "<text " ++ "x=\"" ++ put_double self.reference_point.x ++ "\" "
    ++ "y=\"" ++ put_double self.reference_point.y ++ "\" "
    ++ "dx=\"" ++ put_double self._offset.x ++ "\" "
    ++ "dy=\"" ++ put_double self._offset.y ++ "\" "
    ++ "font-size=\"" ++ Nat.repr self.font_size.val ++ "\" "
  let os := match self._font_family with
    | some v => os ++ "font-family=\"" ++ v ++ "\" "
    | none => os
  let os := self.toSvgObjectCoomonProp.Render put_double os ++ ">" ++ self.text ++ "</text>"
  os

/-- The abstract class `SvgObject` of the header with its three implementations. -/
inductive SvgObject where
  | circle (c : Circle)
  | polyline (p : Polyline)
  | text (t : Text)
  deriving DecidableEq

/-- The virtual member `SvgObject::Render` of the header. -/
def SvgObject.Render (put_double : Double → String) : SvgObject → String → String
  | SvgObject.circle c, os => c.Render put_double os
  | SvgObject.polyline p, os => p.Render put_double os
  | SvgObject.text t, os => t.Render put_double os

/-- The class `Document` of the header. -/
structure Document where
  svg_objects : List SvgObject := []
  deriving DecidableEq

/-- The member `Document::Add` of the header. -/
def Document.Add (self : Document) (svg_obj : SvgObject) : Document :=
  { svg_objects := self.svg_objects ++ [svg_obj] }

/-- The member `Document::Render` of the header. -/
def Document.Render (put_double : Double → String) (self : Document) (os : String) :
    String :=
  let os := os ++ "<?xml version=\"1.0\" encoding=\"UTF-8\" ?>" ++ "\n"
    ++ "<svg xmlns=\"http://www.w3.org/2000/svg\" version=\"1.1\">" ++ "\n"
  let os := self.svg_objects.foldl (fun os obj => obj.Render put_double os) os
  os ++ "</svg>"

end Header

/-! ## Values of the demonstration code -/

/-- The literal `50.34` as a `double`: `0x1.92b851eb851ecp+5`. -/
def lit_50_34 : Double := Double.finite false 7084725163807212 (-47)

/-- The literal `50.67` as a `double`: `0x1.955c28f5c28f6p+5`. -/
def lit_50_67 : Double := Double.finite false 7131168534964470 (-47)

/-- The value `2147483648.0`, that is `2^31`, one more than `INT_MAX`. -/
def lit_2_pow_31 : Double := Double.finite false 1 31

/-- The chain `Polyline{}.AddPoint({50.34, 50.67}).AddPoint({200, 100})`. -/
def polyline_50_34 : Polyline :=
  (({} : Polyline).AddPoint ⟨lit_50_34, lit_50_67⟩).AddPoint
    ⟨Double.ofInt 200, Double.ofInt 100⟩

/-- The first text of `Test`: `Text{}.SetPoint({50, 50}).SetOffset({10, -10})
.SetFontSize(20).SetFontFamily("Verdana").SetFillColor("black").SetData("C")`. -/
def text_verdana : Text :=
  ((((({} : Text).SetPoint ⟨Double.ofInt 50, Double.ofInt 50⟩).SetOffset
    ⟨Double.ofInt 10, Double.ofInt (-10)⟩).SetFontSize 20).SetFontFamily "Verdana"
    |>.SetFillColor (Color.ofString "black")).SetData "C"

/-- The same chain without the call of `SetFontFamily`. -/
def text_no_family : Text :=
  (((({} : Text).SetPoint ⟨Double.ofInt 50, Double.ofInt 50⟩).SetOffset
    ⟨Double.ofInt 10, Double.ofInt (-10)⟩).SetFontSize 20
    |>.SetFillColor (Color.ofString "black")).SetData "C"

/-- The chain `Polyline{}.AddPoint({50, 50}).AddPoint({250, 250})` of `Test`. -/
def polyline_50_250 : Polyline :=
  (({} : Polyline).AddPoint ⟨Double.ofInt 50, Double.ofInt 50⟩).AddPoint
    ⟨Double.ofInt 250, Double.ofInt 250⟩

/-- The same chain on the `Polyline` of the header. -/
def header_polyline_50_250 : Header.Polyline :=
  (({} : Header.Polyline).AddPoint ⟨Double.ofInt 50, Double.ofInt 50⟩).AddPoint
    ⟨Double.ofInt 250, Double.ofInt 250⟩

/-! ## Calls of setters

To speak of "any setter" of a class, a call of one of its setters together with
its argument is a value of the types below; `apply` performs the call and `member`
numbers the data member the setter assigns, in declaration order. -/

/-- A call of one of the five setters of `SvgObjectTemplate<D>`. -/
inductive StyleCall where
  | SetFillColor (colour : Color)
  | SetStrokeColor (colour : Color)
  | SetStrokeWidth (width : Double)
  | SetStrokeLineCap (str : String)
  | SetStrokeLineJoin (str : String)

/-- The data member a style setter assigns. -/
def StyleCall.member : StyleCall → Nat
  | StyleCall.SetFillColor _ => 0
  | StyleCall.SetStrokeColor _ => 1
  | StyleCall.SetStrokeWidth _ => 2
  | StyleCall.SetStrokeLineCap _ => 3
  | StyleCall.SetStrokeLineJoin _ => 4

/-- A call of a setter of `Circle`: an inherited one, `SetCenter` or `SetRadius`. -/
inductive CircleCall where
  | style (call : StyleCall)
  | SetCenter (center : Point)
  | SetRadius (radius : Double)

/-- The data member a setter of `Circle` assigns. -/
def CircleCall.member : CircleCall → Nat
  | CircleCall.style call => call.member
  | CircleCall.SetCenter _ => 5
  | CircleCall.SetRadius _ => 6

/-- The call performed on a circle. -/
def CircleCall.apply : CircleCall → Circle → Circle
  | CircleCall.style (StyleCall.SetFillColor a), c => c.SetFillColor a
  | CircleCall.style (StyleCall.SetStrokeColor a), c => c.SetStrokeColor a
  | CircleCall.style (StyleCall.SetStrokeWidth a), c => c.SetStrokeWidth a
  | CircleCall.style (StyleCall.SetStrokeLineCap a), c => c.SetStrokeLineCap a
  | CircleCall.style (StyleCall.SetStrokeLineJoin a), c => c.SetStrokeLineJoin a
  | CircleCall.SetCenter a, c => c.SetCenter a
  | CircleCall.SetRadius a, c => c.SetRadius a

/-- The call of an inherited setter performed on a polyline. -/
def StyleCall.applyPolyline : StyleCall → Polyline → Polyline
  | StyleCall.SetFillColor a, p => p.SetFillColor a
  | StyleCall.SetStrokeColor a, p => p.SetStrokeColor a
  | StyleCall.SetStrokeWidth a, p => p.SetStrokeWidth a
  | StyleCall.SetStrokeLineCap a, p => p.SetStrokeLineCap a
  | StyleCall.SetStrokeLineJoin a, p => p.SetStrokeLineJoin a

/-- A call of a setter of `Text`: an inherited one or one of its own five. -/
inductive TextCall where
  | style (call : StyleCall)
  | SetPoint (point : Point)
  | SetOffset (offset : Point)
  | SetFontSize (size : Fin 4294967296)
  | SetFontFamily (font : String)
  | SetData (data : String)

/-- The data member a setter of `Text` assigns. -/
def TextCall.member : TextCall → Nat
  | TextCall.style call => call.member
  | TextCall.SetPoint _ => 5
  | TextCall.SetOffset _ => 6
  | TextCall.SetFontSize _ => 7
  | TextCall.SetFontFamily _ => 8
  | TextCall.SetData _ => 9

/-- The call performed on a text. -/
def TextCall.apply : TextCall → Text → Text
  | TextCall.style (StyleCall.SetFillColor a), t => t.SetFillColor a
  | TextCall.style (StyleCall.SetStrokeColor a), t => t.SetStrokeColor a
  | TextCall.style (StyleCall.SetStrokeWidth a), t => t.SetStrokeWidth a
  | TextCall.style (StyleCall.SetStrokeLineCap a), t => t.SetStrokeLineCap a
  | TextCall.style (StyleCall.SetStrokeLineJoin a), t => t.SetStrokeLineJoin a
  | TextCall.SetPoint a, t => t.SetPoint a
  | TextCall.SetOffset a, t => t.SetOffset a
  | TextCall.SetFontSize a, t => t.SetFontSize a
  | TextCall.SetFontFamily a, t => t.SetFontFamily a
  | TextCall.SetData a, t => t.SetData a

/-! ## Specification-side notions -/

/-- The number a string of decimal digits denotes, most significant digit first. -/
def decValue (l : List Char) : Nat :=
  l.foldl (fun a c => 10 * a + (c.toNat - '0'.toNat)) 0

/-- The string `t` is the unsigned decimal numeral of `n` without padding: it is not
empty, holds decimal digits only, denotes `n`, and starts with `0` only when it is
the numeral `0` itself. -/
def IsDecimalNumeral (n : Nat) (t : String) : Prop :=
  t.data ≠ [] ∧ (∀ c ∈ t.data, c.isDigit = true) ∧ decValue t.data = n
    ∧ (t.data.head? ≠ some '0' ∨ t = "0")

end Svg

/-! # Theorems -/

namespace Svg

/-! ## Writing to a stream only appends -/

theorem join_cons (a : String) (l : List String) :
    String.join (a :: l) = a ++ String.join l := by
  apply String.ext
  simp [String.data_join]

theorem join_snoc (l : List String) (a : String) :
    String.join (l ++ [a]) = String.join l ++ a := by
  apply String.ext
  simp [String.data_join]

theorem join_append (l₁ l₂ : List String) :
    String.join (l₁ ++ l₂) = String.join l₁ ++ String.join l₂ := by
  apply String.ext
  simp [String.data_join]

theorem SvgObjectTemplate_Render_append (self : SvgObjectTemplate) (os : String) :
    self.Render os = os ++ self.Render "" := by
  unfold SvgObjectTemplate.Render
  cases self.stroke_linecap <;> cases self.stroke_linejoin <;>
    simp [String.append_assoc]

theorem Circle_Render_append (self : Circle) (os : String) :
    self.Render os = os ++ self.Render "" := by
  unfold Circle.Render
  simp only []
  rw [SvgObjectTemplate_Render_append,
    SvgObjectTemplate_Render_append _ (_ ++ _)]
  simp [String.append_assoc]

theorem Polyline_Render_append (self : Polyline) (os : String) :
    self.Render os = os ++ self.Render "" := by
  unfold Polyline.Render
  simp only []
  rw [SvgObjectTemplate_Render_append,
    SvgObjectTemplate_Render_append _ (_ ++ _)]
  simp [String.append_assoc]

theorem Text_Render_append (self : Text) (os : String) :
    self.Render os = os ++ self.Render "" := by
  unfold Text.Render
  cases self._font_family <;> simp only [] <;>
    rw [SvgObjectTemplate_Render_append,
      SvgObjectTemplate_Render_append _ (_ ++ _)] <;>
    simp [String.append_assoc]

theorem SvgObject_Render_append (self : SvgObject) (os : String) :
    self.Render os = os ++ self.Render "" := by
  cases self with
  | circle c => exact Circle_Render_append c os
  | polyline p => exact Polyline_Render_append p os
  | text t => exact Text_Render_append t os

/-- The rendering loop of `Document::Render` appends the tags of the objects, one
after the other, to what the stream already holds. -/
theorem foldl_Render (objs : List SvgObject) (os : String) :
    objs.foldl (fun os obj => obj.Render os) os
      = os ++ String.join (objs.map (fun obj => obj.Render "")) := by
  induction objs generalizing os with
  | nil => simp [String.join]
  | cons o rest ih =>
      rw [List.foldl_cons, ih, List.map_cons, join_cons, SvgObject_Render_append o os,
        String.append_assoc]

/-! ### The same for the header -/

theorem Header_SvgObjectCoomonProp_Render_append (put_double : Double → String)
    (self : Header.SvgObjectCoomonProp) (os : String) :
    self.Render put_double os = os ++ self.Render put_double "" := by
  unfold Header.SvgObjectCoomonProp.Render
  cases self.stroke_linecap <;> cases self.stroke_linejoin <;>
    simp only [String.append_assoc, String.empty_append]

theorem Header_Polyline_GetVertexes_eq (put_double : Double → String)
    (self : Header.Polyline) (os : String) :
    self.GetVertexes put_double os
      = os ++ String.join
          (self.vertexes.map (fun p => put_double p.x ++ "," ++ put_double p.y ++ " ")) := by
  unfold Header.Polyline.GetVertexes
  generalize self.vertexes = vs
  induction vs generalizing os with
  | nil => simp [String.join]
  | cons v rest ih =>
      rw [List.foldl_cons, ih, List.map_cons, join_cons]
      simp only [String.append_assoc]

theorem Header_SvgObject_Render_append (put_double : Double → String)
    (self : Header.SvgObject) (os : String) :
    self.Render put_double os = os ++ self.Render put_double "" := by
  cases self with
  | circle c =>
      show c.Render put_double os = os ++ c.Render put_double ""
      unfold Header.Circle.Render
      simp only []
      rw [Header_SvgObjectCoomonProp_Render_append,
        Header_SvgObjectCoomonProp_Render_append _ _ (_ ++ _)]
      simp only [String.append_assoc, String.empty_append]
  | polyline p =>
      show p.Render put_double os = os ++ p.Render put_double ""
      unfold Header.Polyline.Render
      simp only []
      rw [Header_SvgObjectCoomonProp_Render_append,
        Header_SvgObjectCoomonProp_Render_append _ _ (_ ++ _),
        Header_Polyline_GetVertexes_eq, Header_Polyline_GetVertexes_eq _ _ (_ ++ _)]
      simp only [String.append_assoc, String.empty_append]
  | text t =>
      show t.Render put_double os = os ++ t.Render put_double ""
      unfold Header.Text.Render
      cases t._font_family <;> simp only [] <;>
        rw [Header_SvgObjectCoomonProp_Render_append,
          Header_SvgObjectCoomonProp_Render_append _ _ (_ ++ _)] <;>
        simp only [String.append_assoc, String.empty_append]

/-- The closed form of `Document::Render` of the header. -/
theorem Header_Document_Render_eq (put_double : Double → String) (d : Header.Document)
    (os : String) :
    d.Render put_double os = os ++ "<?xml version=\"1.0\" encoding=\"UTF-8\" ?>" ++ "\n"
      ++ "<svg xmlns=\"http://www.w3.org/2000/svg\" version=\"1.1\">" ++ "\n"
      ++ String.join (d.svg_objects.map (fun s => s.Render put_double "")) ++ "</svg>" := by
  have loop : ∀ (objs : List Header.SvgObject) (os : String),
      objs.foldl (fun os obj => obj.Render put_double os) os
        = os ++ String.join (objs.map (fun obj => obj.Render put_double "")) := by
    intro objs
    induction objs with
    | nil => intro os; simp [String.join]
    | cons o rest ih =>
        intro os
        rw [List.foldl_cons, ih, List.map_cons, join_cons,
          Header_SvgObject_Render_append put_double o os, String.append_assoc]
  unfold Header.Document.Render
  simp only []
  rw [loop]

/-- The closed form of `Document::Render`. -/
theorem Document_Render_eq (d : Document) (os : String) :
    d.Render os = os ++ "<?xml version=\"1.0\" encoding=\"UTF-8\" ?>" ++ "\n"
      ++ "<svg xmlns=\"http://www.w3.org/2000/svg\" version=\"1.1\">" ++ "\n"
      ++ String.join (d.svg_objects.map (fun s => s.Render "")) ++ "</svg>" := by
  unfold Document.Render
  simp only []
  rw [foldl_Render]

/-- Removing a six-character suffix that was appended gives back the string. -/
theorem take_append_svg (b t : String) :
    (b ++ t).take ((b ++ t).length - t.length) = b := by
  apply String.ext
  rw [String.take_eq]
  show List.take ((b ++ t).data.length - t.data.length) (b ++ t).data = b.data
  rw [String.data_append, List.length_append, Nat.add_sub_cancel]
  exact List.take_left _ _

theorem drop_append_svg (b t : String) :
    (b ++ t).drop ((b ++ t).length - t.length) = t := by
  apply String.ext
  rw [String.drop_eq]
  show List.drop ((b ++ t).data.length - t.data.length) (b ++ t).data = t.data
  rw [String.data_append, List.length_append, Nat.add_sub_cancel]
  exact List.drop_left _ _

theorem Document_foldl_Add_objects (ss : List SvgObject) (d : Document) :
    (ss.foldl Document.Add d).svg_objects = d.svg_objects ++ ss := by
  induction ss generalizing d with
  | nil => simp
  | cons s rest ih => simp [List.foldl_cons, ih, Document.Add]

/-! ## The document (C1, C2, C3) -/

/-- C1: for every document and every stream content, `Document::Render` appends
exactly the XML declaration, a newline, the root-open tag, a newline, the tags of
the owned shapes in order with nothing between them, and `</svg>` with nothing
after it; so does `Document::Render` of the header, whatever the standard
library prints for a `double`. -/
theorem Document_Render_exact (d : Document) (os : String)
    (put_double : Double → String) (dh : Header.Document) :
    d.Render os = os ++ "<?xml version=\"1.0\" encoding=\"UTF-8\" ?>" ++ "\n"
      ++ "<svg xmlns=\"http://www.w3.org/2000/svg\" version=\"1.1\">" ++ "\n"
      ++ String.join (d.svg_objects.map (fun s => s.Render "")) ++ "</svg>"
    ∧ dh.Render put_double os
      = os ++ "<?xml version=\"1.0\" encoding=\"UTF-8\" ?>" ++ "\n"
        ++ "<svg xmlns=\"http://www.w3.org/2000/svg\" version=\"1.1\">" ++ "\n"
        ++ String.join (dh.svg_objects.map (fun s => s.Render put_double "")) ++ "</svg>" :=
  ⟨Document_Render_eq d os, Header_Document_Render_eq put_double dh os⟩

/-- C2: rendering after `Add(s)` is the rendering before it with the final `</svg>`
removed, then the tag of `s`, then `</svg>`; and after any sequence of `Add` calls
the tags stand in the order of the calls, after the tags the document already
held. -/
theorem Document_Add_Render_order (d : Document) (s : SvgObject) (os : String) :
    (d.Render os).drop ((d.Render os).length - "</svg>".length) = "</svg>"
    ∧ (d.Add s).Render os
        = (d.Render os).take ((d.Render os).length - "</svg>".length)
            ++ s.Render "" ++ "</svg>"
    ∧ ∀ ss : List SvgObject,
        (ss.foldl Document.Add d).Render os
          = os ++ "<?xml version=\"1.0\" encoding=\"UTF-8\" ?>" ++ "\n"
            ++ "<svg xmlns=\"http://www.w3.org/2000/svg\" version=\"1.1\">" ++ "\n"
            ++ String.join (d.svg_objects.map (fun s => s.Render ""))
            ++ String.join (ss.map (fun s => s.Render "")) ++ "</svg>" := by
  refine ⟨?_, ?_, ?_⟩
  · rw [Document_Render_eq, drop_append_svg]
  · rw [Document_Render_eq d, take_append_svg, Document_Render_eq]
    simp [Document.Add, join_append, String.join, String.append_assoc]
  · intro ss
    rw [Document_Render_eq, Document_foldl_Add_objects, List.map_append, join_append]
    simp [String.append_assoc]

/-- C3: a default-constructed document renders as the XML declaration, a newline,
the root-open tag, a newline and `</svg>`, with no shape tag between the root
tags. -/
theorem Document_Render_empty (os : String) :
    ({} : Document).Render os
      = os ++ "<?xml version=\"1.0\" encoding=\"UTF-8\" ?>" ++ "\n"
        ++ "<svg xmlns=\"http://www.w3.org/2000/svg\" version=\"1.1\">" ++ "\n"
        ++ "</svg>"
    ∧ ({} : Document).Render ""
      = "<?xml version=\"1.0\" encoding=\"UTF-8\" ?>\n<svg xmlns=\"http://www.w3.org/2000/svg\" version=\"1.1\">\n</svg>" := by
  constructor
  · rw [Document_Render_eq]
    simp [String.join]
  · decide

/-! ## Decimal numerals -/

theorem digitChar_facts (k : Nat) (h : k < 10) :
    (Nat.digitChar k).isDigit = true ∧ (Nat.digitChar k).toNat - '0'.toNat = k
      ∧ (Nat.digitChar k = '0' ↔ k = 0) := by
  interval_cases k <;> decide

theorem decValue_snoc (l : List Char) (c : Char) :
    decValue (l ++ [c]) = 10 * decValue l + (c.toNat - '0'.toNat) := by
  simp [decValue, List.foldl_append]

/-- What the digit loop behind `Nat.repr` puts in front of its accumulator. -/
theorem toDigitsCore_spec (fuel : Nat) : ∀ (n : Nat) (ds : List Char), n < fuel →
    ∃ pre : List Char, Nat.toDigitsCore 10 fuel n ds = pre ++ ds ∧ pre ≠ []
      ∧ (∀ c ∈ pre, c.isDigit = true) ∧ decValue pre = n
      ∧ (n = 0 → pre = ['0']) ∧ (n ≠ 0 → pre.head? ≠ some '0') := by
  induction fuel with
  | zero => intro n ds h; omega
  | succ fuel ih =>
    intro n ds h
    have hd := digitChar_facts (n % 10) (Nat.mod_lt _ (by decide))
    unfold Nat.toDigitsCore
    by_cases h0 : n / 10 = 0
    · simp only [h0, if_true]
      have hn : n < 10 := by omega
      have hm : n % 10 = n := Nat.mod_eq_of_lt hn
      refine ⟨[Nat.digitChar (n % 10)], rfl, by simp, ?_, ?_, ?_, ?_⟩
      · intro c hc
        simp only [List.mem_singleton] at hc
        rw [hc]; exact hd.1
      · simp only [decValue, List.foldl_cons, List.foldl_nil]
        rw [hd.2.1]; omega
      · intro hz; rw [hz]; rfl
      · intro hz
        simp only [List.head?_cons, ne_eq, Option.some.injEq]
        rw [hd.2.2, hm]; exact hz
    · simp only [h0, if_false]
      obtain ⟨pre, hpre, hne, hdig, hval, _, hhead⟩ :=
        ih (n / 10) (Nat.digitChar (n % 10) :: ds) (by omega)
      refine ⟨pre ++ [Nat.digitChar (n % 10)], ?_, by simp, ?_, ?_, ?_, ?_⟩
      · rw [hpre]; simp
      · intro c hc
        rcases List.mem_append.mp hc with hc | hc
        · exact hdig c hc
        · simp only [List.mem_singleton] at hc
          rw [hc]; exact hd.1
      · rw [decValue_snoc, hval, hd.2.1]; omega
      · intro hz; exfalso; apply h0; rw [hz]
      · intro _
        cases pre with
        | nil => exact absurd rfl hne
        | cons a t => simpa using hhead h0

/-- The numeral `Nat.repr n` is the unpadded decimal numeral of `n`. -/
theorem repr_isDecimalNumeral (n : Nat) : IsDecimalNumeral n (Nat.repr n) := by
  obtain ⟨pre, hpre, hne, hdig, hval, hzero, hhead⟩ :=
    toDigitsCore_spec (n + 1) n [] (Nat.lt_succ_self n)
  have hdata : (Nat.repr n).data = pre := by
    show (Nat.toDigitsCore 10 (n + 1) n []) = pre
    rw [hpre, List.append_nil]
  refine ⟨by rw [hdata]; exact hne, by rw [hdata]; exact hdig, by rw [hdata]; exact hval, ?_⟩
  by_cases hz : n = 0
  · right
    apply String.ext
    rw [hdata, hzero hz]
  · left
    rw [hdata]; exact hhead hz

/-- A numeral for a number `n` holds no character that is not a decimal digit. -/
theorem repr_no_char (n : Nat) (c : Char) (hc : c.isDigit = false) :
    c ∉ (Nat.repr n).data := by
  intro hmem
  have := (repr_isDecimalNumeral n).2.1 c hmem
  rw [hc] at this
  exact absurd this (by decide)

theorem to_string_int_ofNat (n : Nat) : to_string_int (Int.ofNat n) = Nat.repr n := by
  unfold to_string_int
  have h : ¬ (Int.ofNat n < 0) := Int.not_lt.mpr (Int.ofNat_zero_le n)
  rw [if_neg h]
  rfl

/-! ## Colours (C4, C5) -/

/-- C4: for every `Rgb` value the colour prints as `rgb(` r `,` g `,` b `)`, each
channel as its unpadded unsigned decimal numeral, with no space after the commas;
`Rgb{140,198,63}` prints as `rgb(140,198,63)`. -/
theorem ColorToString_rgb (r g b : Fin 256) :
    ColorToString (Color.ofRgb ⟨r, g, b⟩)
      = "rgb(" ++ Nat.repr r.val ++ "," ++ Nat.repr g.val ++ "," ++ Nat.repr b.val ++ ")"
    ∧ IsDecimalNumeral r.val (Nat.repr r.val)
    ∧ IsDecimalNumeral g.val (Nat.repr g.val)
    ∧ IsDecimalNumeral b.val (Nat.repr b.val)
    ∧ ColorToString (Color.ofRgb ⟨140, 198, 63⟩) = "rgb(140,198,63)" := by
  refine ⟨?_, repr_isDecimalNumeral _, repr_isDecimalNumeral _, repr_isDecimalNumeral _, ?_⟩
  · simp only [ColorToString, Color.ofRgb, to_string_int_ofNat]
  · decide

/-- C5: a colour built from a string prints as that string, unchanged, whatever
the string; the default-constructed colour and `NoneColor` print as `none`. -/
theorem ColorToString_string (s : String) :
    ColorToString (Color.ofString s) = s
    ∧ ColorToString (Color.ofString "") = ""
    ∧ ColorToString (Color.ofString "my color") = "my color"
    ∧ ColorToString ({} : Color) = "none"
    ∧ ColorToString NoneColor = "none" :=
  ⟨rfl, rfl, rfl, rfl, rfl⟩

/-! ## Style properties and shapes (C6, C7, C8) -/

/-- C6: the style fragment is `fill="F" stroke="S" stroke-width="W" `, then
`stroke-linecap="C" ` exactly when the line-cap is set, then `stroke-linejoin="J" `
exactly when the line-join is set, in that order; an unset attribute contributes
no character.  W is `DoubleToString` of the stroke width in `svg_lib.cpp` and what
the stream prints for it in the header. -/
theorem SvgObjectTemplate_Render_fragment (p : SvgObjectTemplate) (os : String)
    (put_double : Double → String) (ph : Header.SvgObjectCoomonProp) :
    p.Render os
      = os ++ "fill=\"" ++ ColorToString p.fill_color ++ "\" "
        ++ "stroke=\"" ++ ColorToString p.stroke_color ++ "\" "
        ++ "stroke-width=\"" ++ DoubleToString p.stroke_width ++ "\" "
        ++ (match p.stroke_linecap with
            | some c => "stroke-linecap=\"" ++ c ++ "\" "
            | none => "")
        ++ (match p.stroke_linejoin with
            | some j => "stroke-linejoin=\"" ++ j ++ "\" "
            | none => "")
    ∧ ph.Render put_double os
      = os ++ "fill=\"" ++ ColorToString ph.fill_color ++ "\" "
        ++ "stroke=\"" ++ ColorToString ph.stroke_color ++ "\" "
        ++ "stroke-width=\"" ++ put_double ph.stroke_width ++ "\" "
        ++ (match ph.stroke_linecap with
            | some c => "stroke-linecap=\"" ++ c ++ "\" "
            | none => "")
        ++ (match ph.stroke_linejoin with
            | some j => "stroke-linejoin=\"" ++ j ++ "\" "
            | none => "") := by
  constructor
  · unfold SvgObjectTemplate.Render
    cases p.stroke_linecap <;> cases p.stroke_linejoin <;>
      simp only [String.append_assoc, String.append_empty]
  · unfold Header.SvgObjectCoomonProp.Render
    cases ph.stroke_linecap <;> cases ph.stroke_linejoin <;>
      simp only [String.append_assoc, String.append_empty]

/-- C7: a circle renders as `<circle cx="X" cy="Y" r="R" `, the style fragment and
`/>`, with X, Y, R the formatted centre coordinates and radius; the circle of the
demonstration renders as the tag the specification quotes. -/
theorem Circle_Render_exact (c : Circle) (os : String) :
    c.Render os
      = os ++ "<circle " ++ "cx=\"" ++ DoubleToString c._center.x ++ "\" "
        ++ "cy=\"" ++ DoubleToString c._center.y ++ "\" "
        ++ "r=\"" ++ DoubleToString c._radius ++ "\" "
        ++ c.toSvgObjectTemplate.Render "" ++ "/>"
    ∧ ((({} : Circle).SetFillColor (Color.ofString "white")).SetRadius (Double.ofInt 6)
          |>.SetCenter ⟨Double.ofInt 50, Double.ofInt 50⟩).Render ""
        = "<circle cx=\"50\" cy=\"50\" r=\"6\" fill=\"white\" stroke=\"none\" stroke-width=\"1\" />" := by
  constructor
  · unfold Circle.Render
    simp only []
    rw [SvgObjectTemplate_Render_append]
  · decide

/-- The loop of `Polyline::GetVertexes` started from any accumulated string. -/
theorem GetVertexes_foldl (vs : List Point) (acc : String) :
    vs.foldl
        (fun points p => points ++ (DoubleToString p.x ++ ", " ++ DoubleToString p.y ++ " "))
        acc
      = acc ++ String.join
          (vs.map (fun p => DoubleToString p.x ++ ", " ++ DoubleToString p.y ++ " ")) := by
  induction vs generalizing acc with
  | nil => simp [String.join]
  | cons v rest ih => rw [List.foldl_cons, ih, List.map_cons, join_cons, String.append_assoc]

/-- C8: a polyline renders as `<polyline points="P" `, the style fragment and `/>`,
where P joins, in insertion order, `fmt(x) ++ ", " ++ fmt(y) ++ " "` of every
vertex; with no vertex, P is empty and the tag begins `<polyline points="" `. -/
theorem Polyline_Render_exact (p : Polyline) (os : String) (style : SvgObjectTemplate) :
    p.Render os
      = os ++ "<polyline " ++ "points=\""
        ++ String.join
            (p.vertexes.map (fun v => DoubleToString v.x ++ ", " ++ DoubleToString v.y ++ " "))
        ++ "\" " ++ p.toSvgObjectTemplate.Render "" ++ "/>"
    ∧ ({ toSvgObjectTemplate := style, vertexes := [] } : Polyline).Render os
      = os ++ "<polyline points=\"\" " ++ style.Render "" ++ "/>" := by
  have key : ∀ q : Polyline, q.Render os
      = os ++ "<polyline " ++ "points=\""
        ++ String.join
            (q.vertexes.map (fun v => DoubleToString v.x ++ ", " ++ DoubleToString v.y ++ " "))
        ++ "\" " ++ q.toSvgObjectTemplate.Render "" ++ "/>" := by
    intro q
    unfold Polyline.Render Polyline.GetVertexes
    simp only []
    rw [SvgObjectTemplate_Render_append, GetVertexes_foldl]
    simp [String.append_assoc]
  refine ⟨key p, ?_⟩
  rw [key]
  simp only [List.map_nil, String.join, List.foldl_nil, String.append_assoc]
  rfl

/-! ## The numeric formatter (C9, C10) -/

theorem signed_decide_natAbs (t : Int) : Double.signed (decide (t < 0)) t.natAbs = t := by
  unfold Double.signed
  by_cases h : t < 0
  · simp only [h, decide_True, if_true]; omega
  · simp only [h, decide_False]; simp; omega

theorem signed_mul (s : Bool) (m k : Nat) :
    Double.signed s (m * k) = Double.signed s m * (k : Int) := by
  unfold Double.signed
  cases s <;> simp

theorem signed_div (s : Bool) (m k : Nat) (t : Int) (hk : 0 < k)
    (h : Double.signed s m = t * (k : Int)) : Double.signed s (m / k) = t := by
  have hk0 : (k : Int) ≠ 0 := by omega
  unfold Double.signed at h ⊢
  cases s with
  | false =>
    simp only [Bool.false_eq_true, if_false] at h ⊢
    rw [Int.ofNat_ediv, h, Int.mul_ediv_cancel _ hk0]
  | true =>
    simp only [if_true] at h ⊢
    have h2 : (m : Int) = (-t) * (k : Int) := by rw [Int.neg_mul, ← h, Int.neg_neg]
    rw [Int.ofNat_ediv, h2, Int.mul_ediv_cancel _ hk0, Int.neg_neg]

/-- A datum that denotes the integer `t` truncates to `t`. -/
theorem trunc_of_Denotes (num : Double) (t : Int) (h : num.Denotes t) :
    num.trunc = some t := by
  cases num with
  | inf s => exact absurd h (by simp [Double.Denotes])
  | nan => exact absurd h (by simp [Double.Denotes])
  | finite s m e =>
    replace h : (if 0 ≤ e then Double.signed s m * 2 ^ e.toNat = t
        else Double.signed s m = t * 2 ^ (-e).toNat) := h
    show some (Double.signed s (if 0 ≤ e then m * 2 ^ e.toNat else m / 2 ^ (-e).toNat))
      = some t
    by_cases he : 0 ≤ e
    · rw [if_pos he] at h
      rw [if_pos he, signed_mul]
      rw [← h]; simp
    · rw [if_neg he] at h
      rw [if_neg he]
      have hpos : 0 < 2 ^ (-e).toNat := Nat.pow_pos (by decide)
      rw [signed_div s m _ t hpos (by rw [h]; simp)]

/-- A datum that denotes the integer `t` compares equal to the `double` made of `t`. -/
theorem eq_ofInt_of_Denotes (num : Double) (t : Int) (h : num.Denotes t) :
    Double.eq num (Double.ofInt t) = true := by
  cases num with
  | inf s => exact absurd h (by simp [Double.Denotes])
  | nan => exact absurd h (by simp [Double.Denotes])
  | finite s m e =>
    replace h : (if 0 ≤ e then Double.signed s m * 2 ^ e.toNat = t
        else Double.signed s m = t * 2 ^ (-e).toNat) := h
    unfold Double.eq Double.ofInt
    simp only [decide_eq_true_eq]
    rw [signed_decide_natAbs]
    by_cases he : 0 ≤ e
    · rw [if_pos he] at h
      rw [min_eq_right he]
      simp only [sub_zero, Int.toNat_zero, pow_zero, mul_one]
      exact h
    · rw [if_neg he] at h
      have he' : e ≤ 0 := by omega
      rw [min_eq_left he']
      simp only [sub_self, Int.toNat_zero, pow_zero, mul_one, zero_sub]
      exact h

/-- Whatever `int` the undefined conversion of `2^31` produces, the comparison of
`DoubleToString` fails on it: no `int` equals `2^31`. -/
theorem eq_lit_2_pow_31_ofInt (i : Int) (hlo : INT_MIN ≤ i) (hhi : i ≤ INT_MAX) :
    Double.eq lit_2_pow_31 (Double.ofInt i) = false := by
  unfold lit_2_pow_31 Double.eq Double.ofInt
  simp only [decide_eq_false_iff_not]
  rw [signed_decide_natAbs]
  unfold INT_MIN at hlo
  unfold INT_MAX at hhi
  simp [Double.signed]
  omega

theorem DoubleToString_of_Denotes (num : Double) (t : Int) (h : num.Denotes t)
    (hlo : INT_MIN ≤ t) (hhi : t ≤ INT_MAX) : DoubleToString num = to_string_int t := by
  have hc : static_cast_int num = t := by
    unfold static_cast_int
    rw [trunc_of_Denotes num t h]
    simp only [hlo, hhi, and_self, if_true]
  unfold DoubleToString
  rw [hc, eq_ofInt_of_Denotes num t h]
  simp

theorem to_string_int_no_point (t : Int) : '.' ∉ (to_string_int t).data := by
  unfold to_string_int
  split
  · rw [String.data_append]
    intro hmem
    rcases List.mem_append.mp hmem with h | h
    · revert h; decide
    · exact repr_no_char _ '.' (by decide) h
  · exact repr_no_char _ '.' (by decide)

/-- C9, as stated, fails: the polyline built by `AddPoint({50.34, 50.67})` then
`AddPoint({200, 100})`, its coordinates being the binary64 values of the
literals, does not have the points attribute `50.34, 50.67 200, 100 `. -/
theorem polyline_points_not_shortest :
    lit_50_34.IsLiteral 5034 100 ∧ lit_50_67.IsLiteral 5067 100
    ∧ polyline_50_34.GetVertexes ≠ "50.34, 50.67 200, 100 "
    ∧ polyline_50_34.Render ""
      ≠ "<polyline points=\"50.34, 50.67 200, 100 \" fill=\"none\" stroke=\"none\" stroke-width=\"1\" />" := by
  decide

/-- C9, amended: that polyline renders its points attribute as
`50.340000, 50.670000 200, 100 `: the non-integral coordinates carry the six
fractional digits of `std::to_string`, padding zeros included, and the integral
ones carry no decimal point. -/
theorem polyline_points_six_digits :
    lit_50_34.IsLiteral 5034 100 ∧ lit_50_67.IsLiteral 5067 100
    ∧ DoubleToString lit_50_34 = "50.340000" ∧ DoubleToString lit_50_67 = "50.670000"
    ∧ polyline_50_34.GetVertexes = "50.340000, 50.670000 200, 100 "
    ∧ polyline_50_34.Render ""
      = "<polyline points=\"50.340000, 50.670000 200, 100 \" fill=\"none\" stroke=\"none\" stroke-width=\"1\" />" := by
  decide

/-- C10, the code at the failing input: `2147483648.0` is an integral binary64
value, and `DoubleToString` prints it with a decimal point and six zeros, not as
the numeral of the integer, where the claim asks for `2147483648`; the integer
just below, `2147483647.0`, is printed as its numeral. -/
theorem DoubleToString_large_integral :
    lit_2_pow_31.IsBinary64 ∧ lit_2_pow_31.Denotes 2147483648
    ∧ DoubleToString lit_2_pow_31 = "2147483648.000000"
    ∧ '.' ∈ (DoubleToString lit_2_pow_31).data
    ∧ DoubleToString lit_2_pow_31 ≠ "2147483648"
    ∧ DoubleToString (Double.ofInt 2147483647) = "2147483647" := by
  decide

/-- Where the conversion to `int` does not overflow the formatter prints integral
values as intended: for every integral floating-point value within the range of
`int`, of either sign, `DoubleToString` is the decimal numeral of that integer, a
`-` first when it is negative, and holds no decimal point; `50.0` gives `50` and
`-10.0` gives `-10`. -/
theorem DoubleToString_integral (num : Double) (t : Int) (h : num.Denotes t)
    (hlo : INT_MIN ≤ t) (hhi : t ≤ INT_MAX) :
    DoubleToString num = (if t < 0 then "-" else "") ++ Nat.repr t.natAbs
    ∧ IsDecimalNumeral t.natAbs (Nat.repr t.natAbs)
    ∧ '.' ∉ (DoubleToString num).data
    ∧ DoubleToString (Double.ofInt 50) = "50"
    ∧ DoubleToString (Double.ofInt (-10)) = "-10" := by
  have hs := DoubleToString_of_Denotes num t h hlo hhi
  refine ⟨?_, repr_isDecimalNumeral _, ?_, by decide, by decide⟩
  · rw [hs]
    unfold to_string_int
    split
    · rfl
    · exact (String.empty_append _).symm
  · rw [hs]
    exact to_string_int_no_point t

/-- The formatter at `-10.0`. -/
theorem DoubleToString_integral_witness :
    (Double.ofInt (-10)).Denotes (-10) ∧ INT_MIN ≤ -10 ∧ (-10 : Int) ≤ INT_MAX
    ∧ DoubleToString (Double.ofInt (-10)) = "-10"
    ∧ '.' ∉ (DoubleToString (Double.ofInt (-10))).data :=
  have w := DoubleToString_integral (Double.ofInt (-10)) (-10) (by decide) (by decide)
    (by decide)
  ⟨by decide, by decide, by decide, w.1.trans (by decide), w.2.2.1⟩

/-! ## Text (C11, C12) and defaults (C14) -/

/-- The closed form of `Text::Render`. -/
theorem Text_Render_eq (t : Text) (os : String) :
    t.Render os
      = os ++ "<text " ++ "x=\"" ++ DoubleToString t.reference_point.x ++ "\" "
        ++ "y=\"" ++ DoubleToString t.reference_point.y ++ "\" "
        ++ "dx=\"" ++ DoubleToString t._offset.x ++ "\" "
        ++ "dy=\"" ++ DoubleToString t._offset.y ++ "\" "
        ++ "font-size=\"" ++ Nat.repr t.font_size.val ++ "\" "
        ++ (match t._font_family with
            | some f => "font-family=\"" ++ f ++ "\" "
            | none => "")
        ++ t.toSvgObjectTemplate.Render "" ++ ">" ++ t.text ++ "</text>" := by
  unfold Text.Render
  cases t._font_family <;>
    (simp only []
     rw [SvgObjectTemplate_Render_append]
     try simp only [String.append_assoc, String.append_empty, String.empty_append])

/-- The closed form of `Text::Render` of the header. -/
theorem Header_Text_Render_eq (put_double : Double → String) (t : Header.Text)
    (os : String) :
    t.Render put_double os
      = os ++ "<text " ++ "x=\"" ++ put_double t.reference_point.x ++ "\" "
        ++ "y=\"" ++ put_double t.reference_point.y ++ "\" "
        ++ "dx=\"" ++ put_double t._offset.x ++ "\" "
        ++ "dy=\"" ++ put_double t._offset.y ++ "\" "
        ++ "font-size=\"" ++ Nat.repr t.font_size.val ++ "\" "
        ++ (match t._font_family with
            | some f => "font-family=\"" ++ f ++ "\" "
            | none => "")
        ++ t.toSvgObjectCoomonProp.Render put_double "" ++ ">" ++ t.text ++ "</text>" := by
  unfold Header.Text.Render
  cases t._font_family <;>
    (simp only []
     rw [Header_SvgObjectCoomonProp_Render_append]
     try simp only [String.append_assoc, String.append_empty, String.empty_append])

set_option maxRecDepth 100000 in
/-- C11: a text renders as `<text x=".." y=".." dx=".." dy=".." font-size="N" ` with N
the unsigned decimal numeral of the font size, then `font-family="F" ` exactly when
a font family F was set, then the style fragment, in `svg_lib.cpp` and in the
header alike.  The text of the demonstration holds
`font-size="20" font-family="Verdana" fill=` contiguously; the same chain without
`SetFontFamily` renders with `fill=` right after the font size and holds
`font-family` nowhere. -/
theorem Text_Render_font_family (t : Text) (os : String) (put_double : Double → String)
    (th : Header.Text) :
    t.Render os
      = os ++ "<text " ++ "x=\"" ++ DoubleToString t.reference_point.x ++ "\" "
        ++ "y=\"" ++ DoubleToString t.reference_point.y ++ "\" "
        ++ "dx=\"" ++ DoubleToString t._offset.x ++ "\" "
        ++ "dy=\"" ++ DoubleToString t._offset.y ++ "\" "
        ++ "font-size=\"" ++ Nat.repr t.font_size.val ++ "\" "
        ++ (match t._font_family with
            | some f => "font-family=\"" ++ f ++ "\" "
            | none => "")
        ++ t.toSvgObjectTemplate.Render "" ++ ">" ++ t.text ++ "</text>"
    ∧ th.Render put_double os
      = os ++ "<text " ++ "x=\"" ++ put_double th.reference_point.x ++ "\" "
        ++ "y=\"" ++ put_double th.reference_point.y ++ "\" "
        ++ "dx=\"" ++ put_double th._offset.x ++ "\" "
        ++ "dy=\"" ++ put_double th._offset.y ++ "\" "
        ++ "font-size=\"" ++ Nat.repr th.font_size.val ++ "\" "
        ++ (match th._font_family with
            | some f => "font-family=\"" ++ f ++ "\" "
            | none => "")
        ++ th.toSvgObjectCoomonProp.Render put_double "" ++ ">" ++ th.text ++ "</text>"
    ∧ IsDecimalNumeral t.font_size.val (Nat.repr t.font_size.val)
    ∧ text_verdana.Render ""
      = "<text x=\"50\" y=\"50\" dx=\"10\" dy=\"-10\" font-size=\"20\" font-family=\"Verdana\" fill=\"black\" stroke=\"none\" stroke-width=\"1\" >C</text>"
    ∧ text_no_family.Render ""
      = "<text x=\"50\" y=\"50\" dx=\"10\" dy=\"-10\" font-size=\"20\" fill=\"black\" stroke=\"none\" stroke-width=\"1\" >C</text>"
    ∧ ¬ ("font-family".data <:+: (text_no_family.Render "").data) :=
  ⟨Text_Render_eq t os, Header_Text_Render_eq put_double th os, repr_isDecimalNumeral _,
    by decide, by decide, by decide⟩

/-- C12: the tag of a text ends with `>`, the content and `</text>`; what precedes
does not depend on the content, which is copied character for character, reserved
XML characters included; the empty content gives `></text>`. -/
theorem Text_Render_content (t : Text) (c : String) (os : String) :
    (t.SetData c).text = c
    ∧ (∃ pre : String, ∀ c' : String, (t.SetData c').Render os = pre ++ ">" ++ c' ++ "</text>")
    ∧ ((t.SetData c).Render os).drop
        (((t.SetData c).Render os).length - (">" ++ c ++ "</text>").length)
      = ">" ++ c ++ "</text>"
    ∧ ((t.SetData "").Render os).drop (((t.SetData "").Render os).length - "></text>".length)
      = "></text>"
    ∧ (({} : Text).SetData "a<b>&\"c\"").Render ""
      = "<text x=\"0\" y=\"0\" dx=\"0\" dy=\"0\" font-size=\"1\" fill=\"none\" stroke=\"none\" stroke-width=\"1\" >a<b>&\"c\"</text>" := by
  have key : ∀ c' : String, (t.SetData c').Render os
      = (os ++ "<text " ++ "x=\"" ++ DoubleToString t.reference_point.x ++ "\" "
        ++ "y=\"" ++ DoubleToString t.reference_point.y ++ "\" "
        ++ "dx=\"" ++ DoubleToString t._offset.x ++ "\" "
        ++ "dy=\"" ++ DoubleToString t._offset.y ++ "\" "
        ++ "font-size=\"" ++ Nat.repr t.font_size.val ++ "\" "
        ++ (match t._font_family with
            | some f => "font-family=\"" ++ f ++ "\" "
            | none => "")
        ++ t.toSvgObjectTemplate.Render "") ++ ">" ++ c' ++ "</text>" := by
    intro c'
    rw [Text_Render_eq]
    rfl
  refine ⟨rfl, ⟨_, key⟩, ?_, ?_, by decide⟩
  · rw [key c, String.append_assoc _ ">" c, String.append_assoc _ (">" ++ c) "</text>"]
    exact drop_append_svg _ _
  · rw [key "", String.append_assoc _ ">" "", String.append_assoc _ (">" ++ "") "</text>"]
    exact drop_append_svg _ _

/-- C14: shapes on which no setter was called render with the defaults of their
members: the circle with centre `0`, `0`, radius `1`, the text with zero
coordinates, font size `1` and empty content, both with fill and stroke `none` and
stroke width `1`. -/
theorem default_shapes_Render :
    ({} : Circle).Render ""
      = "<circle cx=\"0\" cy=\"0\" r=\"1\" fill=\"none\" stroke=\"none\" stroke-width=\"1\" />"
    ∧ ({} : Text).Render ""
      = "<text x=\"0\" y=\"0\" dx=\"0\" dy=\"0\" font-size=\"1\" fill=\"none\" stroke=\"none\" stroke-width=\"1\" ></text>" := by
  decide

/-! ## The builder chain (C15) -/

theorem Polyline_foldl_AddPoint (ps : List Point) (p : Polyline) :
    (ps.foldl Polyline.AddPoint p).vertexes = p.vertexes ++ ps
    ∧ (ps.foldl Polyline.AddPoint p).toSvgObjectTemplate = p.toSvgObjectTemplate := by
  induction ps generalizing p with
  | nil => simp
  | cons q rest ih =>
      rw [List.foldl_cons]
      constructor
      · rw [(ih _).1]; simp [Polyline.AddPoint]
      · rw [(ih _).2]; rfl

/-- C15: `AddPoint` appends its argument to the vertex list and leaves the style
properties alone; a chain of `AddPoint` calls from `Polyline{}` holds the points in
call order; and the points attribute after `AddPoint(q)` is the one before it
followed by `fmt(q.x) ++ ", " ++ fmt(q.y) ++ " "`. -/
theorem Polyline_AddPoint_accumulates (p : Polyline) (q : Point) (ps : List Point) :
    (p.AddPoint q).vertexes = p.vertexes ++ [q]
    ∧ (p.AddPoint q).toSvgObjectTemplate = p.toSvgObjectTemplate
    ∧ (ps.foldl Polyline.AddPoint {}).vertexes = ps
    ∧ (ps.foldl Polyline.AddPoint p).vertexes = p.vertexes ++ ps
    ∧ (ps.foldl Polyline.AddPoint p).toSvgObjectTemplate = p.toSvgObjectTemplate
    ∧ (p.AddPoint q).GetVertexes
      = p.GetVertexes ++ (DoubleToString q.x ++ ", " ++ DoubleToString q.y ++ " ") := by
  refine ⟨rfl, rfl, ?_, (Polyline_foldl_AddPoint ps p).1, (Polyline_foldl_AddPoint ps p).2, ?_⟩
  · rw [(Polyline_foldl_AddPoint ps {}).1]; rfl
  · unfold Polyline.GetVertexes Polyline.AddPoint
    simp only [List.foldl_append, List.foldl_cons, List.foldl_nil]

/-! ## Setters (C16, C18) -/

/-- C16: every setter returns the receiver with the member it sets replaced and
every other member as it was: spelled out member by member for the seven setters
of `Circle`, the ten of `Text` and the six of `Polyline`; hence the tag of
`c.SetFillColor(x)` is the tag of `c` with `x` in the `fill` attribute. -/
theorem setters_frame (c : Circle) (t : Text) (p : Polyline) (x : Color) (w : Double)
    (s : String) (q : Point) (n : Fin 4294967296) (os : String) :
    (c.SetFillColor x =
        { fill_color := x, stroke_color := c.stroke_color,
          stroke_width := c.stroke_width, stroke_linecap := c.stroke_linecap,
          stroke_linejoin := c.stroke_linejoin, _center := c._center,
          _radius := c._radius }
      ∧ c.SetStrokeColor x =
        { fill_color := c.fill_color, stroke_color := x,
          stroke_width := c.stroke_width, stroke_linecap := c.stroke_linecap,
          stroke_linejoin := c.stroke_linejoin, _center := c._center,
          _radius := c._radius }
      ∧ c.SetStrokeWidth w =
        { fill_color := c.fill_color, stroke_color := c.stroke_color,
          stroke_width := w, stroke_linecap := c.stroke_linecap,
          stroke_linejoin := c.stroke_linejoin, _center := c._center,
          _radius := c._radius }
      ∧ c.SetStrokeLineCap s =
        { fill_color := c.fill_color, stroke_color := c.stroke_color,
          stroke_width := c.stroke_width, stroke_linecap := some s,
          stroke_linejoin := c.stroke_linejoin, _center := c._center,
          _radius := c._radius }
      ∧ c.SetStrokeLineJoin s =
        { fill_color := c.fill_color, stroke_color := c.stroke_color,
          stroke_width := c.stroke_width, stroke_linecap := c.stroke_linecap,
          stroke_linejoin := some s, _center := c._center, _radius := c._radius }
      ∧ c.SetCenter q =
        { fill_color := c.fill_color, stroke_color := c.stroke_color,
          stroke_width := c.stroke_width, stroke_linecap := c.stroke_linecap,
          stroke_linejoin := c.stroke_linejoin, _center := q, _radius := c._radius }
      ∧ c.SetRadius w =
        { fill_color := c.fill_color, stroke_color := c.stroke_color,
          stroke_width := c.stroke_width, stroke_linecap := c.stroke_linecap,
          stroke_linejoin := c.stroke_linejoin, _center := c._center, _radius := w })
    ∧ (t.SetFillColor x =
        { fill_color := x, stroke_color := t.stroke_color,
          stroke_width := t.stroke_width, stroke_linecap := t.stroke_linecap,
          stroke_linejoin := t.stroke_linejoin, text := t.text,
          reference_point := t.reference_point, _offset := t._offset,
          font_size := t.font_size, _font_family := t._font_family }
      ∧ t.SetStrokeColor x =
        { fill_color := t.fill_color, stroke_color := x,
          stroke_width := t.stroke_width, stroke_linecap := t.stroke_linecap,
          stroke_linejoin := t.stroke_linejoin, text := t.text,
          reference_point := t.reference_point, _offset := t._offset,
          font_size := t.font_size, _font_family := t._font_family }
      ∧ t.SetStrokeWidth w =
        { fill_color := t.fill_color, stroke_color := t.stroke_color,
          stroke_width := w, stroke_linecap := t.stroke_linecap,
          stroke_linejoin := t.stroke_linejoin, text := t.text,
          reference_point := t.reference_point, _offset := t._offset,
          font_size := t.font_size, _font_family := t._font_family }
      ∧ t.SetStrokeLineCap s =
        { fill_color := t.fill_color, stroke_color := t.stroke_color,
          stroke_width := t.stroke_width, stroke_linecap := some s,
          stroke_linejoin := t.stroke_linejoin, text := t.text,
          reference_point := t.reference_point, _offset := t._offset,
          font_size := t.font_size, _font_family := t._font_family }
      ∧ t.SetStrokeLineJoin s =
        { fill_color := t.fill_color, stroke_color := t.stroke_color,
          stroke_width := t.stroke_width, stroke_linecap := t.stroke_linecap,
          stroke_linejoin := some s, text := t.text,
          reference_point := t.reference_point, _offset := t._offset,
          font_size := t.font_size, _font_family := t._font_family }
      ∧ t.SetPoint q =
        { fill_color := t.fill_color, stroke_color := t.stroke_color,
          stroke_width := t.stroke_width, stroke_linecap := t.stroke_linecap,
          stroke_linejoin := t.stroke_linejoin, text := t.text, reference_point := q,
          _offset := t._offset, font_size := t.font_size,
          _font_family := t._font_family }
      ∧ t.SetOffset q =
        { fill_color := t.fill_color, stroke_color := t.stroke_color,
          stroke_width := t.stroke_width, stroke_linecap := t.stroke_linecap,
          stroke_linejoin := t.stroke_linejoin, text := t.text,
          reference_point := t.reference_point, _offset := q, font_size := t.font_size,
          _font_family := t._font_family }
      ∧ t.SetFontSize n =
        { fill_color := t.fill_color, stroke_color := t.stroke_color,
          stroke_width := t.stroke_width, stroke_linecap := t.stroke_linecap,
          stroke_linejoin := t.stroke_linejoin, text := t.text,
          reference_point := t.reference_point, _offset := t._offset, font_size := n,
          _font_family := t._font_family }
      ∧ t.SetFontFamily s =
        { fill_color := t.fill_color, stroke_color := t.stroke_color,
          stroke_width := t.stroke_width, stroke_linecap := t.stroke_linecap,
          stroke_linejoin := t.stroke_linejoin, text := t.text,
          reference_point := t.reference_point, _offset := t._offset,
          font_size := t.font_size, _font_family := some s }
      ∧ t.SetData s =
        { fill_color := t.fill_color, stroke_color := t.stroke_color,
          stroke_width := t.stroke_width, stroke_linecap := t.stroke_linecap,
          stroke_linejoin := t.stroke_linejoin, text := s,
          reference_point := t.reference_point, _offset := t._offset,
          font_size := t.font_size, _font_family := t._font_family })
    ∧ (p.SetFillColor x =
        { fill_color := x, stroke_color := p.stroke_color,
          stroke_width := p.stroke_width, stroke_linecap := p.stroke_linecap,
          stroke_linejoin := p.stroke_linejoin, vertexes := p.vertexes }
      ∧ p.SetStrokeColor x =
        { fill_color := p.fill_color, stroke_color := x,
          stroke_width := p.stroke_width, stroke_linecap := p.stroke_linecap,
          stroke_linejoin := p.stroke_linejoin, vertexes := p.vertexes }
      ∧ p.SetStrokeWidth w =
        { fill_color := p.fill_color, stroke_color := p.stroke_color,
          stroke_width := w, stroke_linecap := p.stroke_linecap,
          stroke_linejoin := p.stroke_linejoin, vertexes := p.vertexes }
      ∧ p.SetStrokeLineCap s =
        { fill_color := p.fill_color, stroke_color := p.stroke_color,
          stroke_width := p.stroke_width, stroke_linecap := some s,
          stroke_linejoin := p.stroke_linejoin, vertexes := p.vertexes }
      ∧ p.SetStrokeLineJoin s =
        { fill_color := p.fill_color, stroke_color := p.stroke_color,
          stroke_width := p.stroke_width, stroke_linecap := p.stroke_linecap,
          stroke_linejoin := some s, vertexes := p.vertexes }
      ∧ p.AddPoint q =
        { fill_color := p.fill_color, stroke_color := p.stroke_color,
          stroke_width := p.stroke_width, stroke_linecap := p.stroke_linecap,
          stroke_linejoin := p.stroke_linejoin, vertexes := p.vertexes ++ [q] })
    ∧ (c.SetFillColor x).Render os
      = os ++ "<circle " ++ "cx=\"" ++ DoubleToString c._center.x ++ "\" "
        ++ "cy=\"" ++ DoubleToString c._center.y ++ "\" "
        ++ "r=\"" ++ DoubleToString c._radius ++ "\" "
        ++ "fill=\"" ++ ColorToString x ++ "\" "
        ++ "stroke=\"" ++ ColorToString c.stroke_color ++ "\" "
        ++ "stroke-width=\"" ++ DoubleToString c.stroke_width ++ "\" "
        ++ (match c.stroke_linecap with
            | some v => "stroke-linecap=\"" ++ v ++ "\" "
            | none => "")
        ++ (match c.stroke_linejoin with
            | some v => "stroke-linejoin=\"" ++ v ++ "\" "
            | none => "")
        ++ "/>" := by
  refine ⟨⟨rfl, rfl, rfl, rfl, rfl, rfl, rfl⟩,
    ⟨rfl, rfl, rfl, rfl, rfl, rfl, rfl, rfl, rfl, rfl⟩, ⟨rfl, rfl, rfl, rfl, rfl, rfl⟩, ?_⟩
  show (c.SetFillColor x).Render os = _
  unfold Circle.Render SvgObjectTemplate.Render Circle.SetFillColor
    SvgObjectTemplate.SetFillColor
  simp only []
  cases c.stroke_linecap <;> cases c.stroke_linejoin <;>
    simp only [String.append_assoc, String.append_empty, String.empty_append]

theorem CircleCall_commute (c : Circle) (f g : CircleCall) (h : f.member ≠ g.member) :
    g.apply (f.apply c) = f.apply (g.apply c) := by
  rcases f with ⟨_ | _ | _ | _ | _⟩ | _ | _ <;> rcases g with ⟨_ | _ | _ | _ | _⟩ | _ | _ <;>
    first | rfl | exact absurd rfl h

theorem CircleCall_overwrite (c : Circle) (f g : CircleCall) (h : f.member = g.member) :
    g.apply (f.apply c) = g.apply c := by
  rcases f with ⟨_ | _ | _ | _ | _⟩ | _ | _ <;> rcases g with ⟨_ | _ | _ | _ | _⟩ | _ | _ <;>
    first | rfl | simp [CircleCall.member, StyleCall.member] at h

theorem TextCall_commute (t : Text) (f g : TextCall) (h : f.member ≠ g.member) :
    g.apply (f.apply t) = f.apply (g.apply t) := by
  rcases f with ⟨_ | _ | _ | _ | _⟩ | _ | _ | _ | _ | _ <;>
    rcases g with ⟨_ | _ | _ | _ | _⟩ | _ | _ | _ | _ | _ <;>
    first | rfl | exact absurd rfl h

theorem TextCall_overwrite (t : Text) (f g : TextCall) (h : f.member = g.member) :
    g.apply (f.apply t) = g.apply t := by
  rcases f with ⟨_ | _ | _ | _ | _⟩ | _ | _ | _ | _ | _ <;>
    rcases g with ⟨_ | _ | _ | _ | _⟩ | _ | _ | _ | _ | _ <;>
    first | rfl | simp [TextCall.member, StyleCall.member] at h

theorem StyleCall_commute (p : Polyline) (f g : StyleCall) (h : f.member ≠ g.member) :
    g.applyPolyline (f.applyPolyline p) = f.applyPolyline (g.applyPolyline p) := by
  cases f <;> cases g <;> first | rfl | exact absurd rfl h

theorem StyleCall_overwrite (p : Polyline) (f g : StyleCall) (h : f.member = g.member) :
    g.applyPolyline (f.applyPolyline p) = g.applyPolyline p := by
  cases f <;> cases g <;> first | rfl | simp [StyleCall.member] at h

theorem AddPoint_swap_iff (p : Polyline) (a b : Point) :
    (p.AddPoint a).AddPoint b = (p.AddPoint b).AddPoint a ↔ a = b := by
  constructor
  · intro h
    have hv : p.vertexes ++ [a] ++ [b] = p.vertexes ++ [b] ++ [a] :=
      congrArg Polyline.vertexes h
    rw [List.append_assoc, List.append_assoc] at hv
    have := List.append_cancel_left hv
    simp only [List.singleton_append, List.cons.injEq, and_true] at this
    exact this.1
  · intro h
    rw [h]

/-- C18: two setters that assign different members commute and a setter called
again overwrites its earlier call, on `Circle`, `Text` and `Polyline` alike, so
the renderings agree: `SetFillColor` and `SetStrokeColor`, `SetRadius` and
`SetCenter` in either order render the same, `SetFillColor(a).SetFillColor(b)`
renders as `SetFillColor(b)`.  `AddPoint` commutes with every setter, and two
`AddPoint` calls commute only when their points are equal. -/
theorem setters_commute (c : Circle) (f g : CircleCall) (t : Text) (ft gt : TextCall)
    (p : Polyline) (fp gp : StyleCall) (a b : Point) (x y : Color) (r : Double)
    (os : String) :
    (f.member ≠ g.member → g.apply (f.apply c) = f.apply (g.apply c))
    ∧ (f.member = g.member → g.apply (f.apply c) = g.apply c)
    ∧ (ft.member ≠ gt.member → gt.apply (ft.apply t) = ft.apply (gt.apply t))
    ∧ (ft.member = gt.member → gt.apply (ft.apply t) = gt.apply t)
    ∧ (fp.member ≠ gp.member →
        gp.applyPolyline (fp.applyPolyline p) = fp.applyPolyline (gp.applyPolyline p))
    ∧ (fp.member = gp.member → gp.applyPolyline (fp.applyPolyline p) = gp.applyPolyline p)
    ∧ fp.applyPolyline (p.AddPoint a) = (fp.applyPolyline p).AddPoint a
    ∧ ((p.AddPoint a).AddPoint b = (p.AddPoint b).AddPoint a ↔ a = b)
    ∧ ((c.SetFillColor x).SetStrokeColor y).Render os
        = ((c.SetStrokeColor y).SetFillColor x).Render os
    ∧ ((t.SetFillColor x).SetStrokeColor y).Render os
        = ((t.SetStrokeColor y).SetFillColor x).Render os
    ∧ ((p.SetFillColor x).SetStrokeColor y).Render os
        = ((p.SetStrokeColor y).SetFillColor x).Render os
    ∧ ((c.SetRadius r).SetCenter a).Render os = ((c.SetCenter a).SetRadius r).Render os
    ∧ ((c.SetFillColor x).SetFillColor y).Render os = (c.SetFillColor y).Render os
    ∧ ((t.SetFillColor x).SetFillColor y).Render os = (t.SetFillColor y).Render os
    ∧ ((p.SetFillColor x).SetFillColor y).Render os = (p.SetFillColor y).Render os
    ∧ polyline_50_250.Render ""
        ≠ ((({} : Polyline).AddPoint ⟨Double.ofInt 250, Double.ofInt 250⟩).AddPoint
            ⟨Double.ofInt 50, Double.ofInt 50⟩).Render "" := by
  refine ⟨CircleCall_commute c f g, CircleCall_overwrite c f g, TextCall_commute t ft gt,
    TextCall_overwrite t ft gt, StyleCall_commute p fp gp, StyleCall_overwrite p fp gp, ?_,
    AddPoint_swap_iff p a b, rfl, rfl, rfl, rfl, rfl, rfl, rfl, by decide⟩
  cases fp <;> rfl

/-- C18 at the calls `SetFillColor("white")` and `SetRadius(6)` on `Circle{}`, and at
two calls of `SetFillColor`. -/
theorem setters_commute_witness :
    (CircleCall.style (StyleCall.SetFillColor (Color.ofString "white"))).member
        ≠ (CircleCall.SetRadius (Double.ofInt 6)).member
    ∧ (({} : Circle).SetFillColor (Color.ofString "white")).SetRadius (Double.ofInt 6)
        = (({} : Circle).SetRadius (Double.ofInt 6)).SetFillColor (Color.ofString "white")
    ∧ (({} : Circle).SetFillColor (Color.ofString "white")).SetFillColor
          (Color.ofString "black")
        = ({} : Circle).SetFillColor (Color.ofString "black") :=
  have w := setters_commute {} (CircleCall.style (StyleCall.SetFillColor (Color.ofString "white")))
    (CircleCall.SetRadius (Double.ofInt 6)) {} (TextCall.SetData "") (TextCall.SetData "") {}
    (StyleCall.SetStrokeWidth (Double.ofInt 1)) (StyleCall.SetStrokeWidth (Double.ofInt 1))
    {} {} {} {} (Double.ofInt 1) ""
  have v := setters_commute {} (CircleCall.style (StyleCall.SetFillColor (Color.ofString "white")))
    (CircleCall.style (StyleCall.SetFillColor (Color.ofString "black"))) {}
    (TextCall.SetData "") (TextCall.SetData "") {}
    (StyleCall.SetStrokeWidth (Double.ofInt 1)) (StyleCall.SetStrokeWidth (Double.ofInt 1))
    {} {} {} {} (Double.ofInt 1) ""
  ⟨by decide, w.1 (by decide), v.2.1 rfl⟩

/-! ## The polyline of the header (C13) -/

/-- Whatever the stream prints for the numbers `50` and `250`, the points attribute
of the header is not `50, 50 250, 250 `. -/
theorem header_points_ne (put_double : Double → String) :
    header_polyline_50_250.GetVertexes put_double "" ≠ "50, 50 250, 250 " := by
  intro h
  have hd := congrArg String.data h
  simp only [header_polyline_50_250, Header.Polyline.GetVertexes, Header.Polyline.AddPoint,
    List.nil_append, List.foldl_cons, List.foldl_nil, List.singleton_append,
    String.data_append] at hd
  generalize (put_double (Double.ofInt 50)).data = a at hd
  generalize (put_double (Double.ofInt 250)).data = b at hd
  have hl := congrArg List.length hd
  rcases a with _ | ⟨c1, _ | ⟨c2, _ | ⟨c3, _ | ⟨d1, _ | ⟨d2, _ | ⟨d3, _ | ⟨d4, a'⟩⟩⟩⟩⟩⟩⟩
  · simp at hd
  · simp at hd
  · simp at hd
  · simp at hd
  · simp at hd
  · simp at hd
  · simp at hd
  · simp at hl
    omega

/-- C13, as stated, fails: for the polyline `AddPoint({50, 50}).AddPoint({250, 250})`
the points attribute of `svg_lib.cpp` is `50, 50 250, 250 `, and the header writes
another one whatever the stream prints for a number; with `50` and `250` printed
as `50` and `250` it writes `50,50 250,250 `. -/
theorem header_polyline_points_differ :
    polyline_50_250.GetVertexes = "50, 50 250, 250 "
    ∧ (¬ ∃ put_double : Double → String,
        header_polyline_50_250.GetVertexes put_double "" = "50, 50 250, 250 ")
    ∧ header_polyline_50_250.GetVertexes DoubleToString "" = "50,50 250,250 "
    ∧ header_polyline_50_250.GetVertexes DoubleToString "" ≠ polyline_50_250.GetVertexes := by
  refine ⟨by decide, ?_, by decide, by decide⟩
  rintro ⟨put_double, h⟩
  exact header_points_ne put_double h

/-- C13, amended: in the header every pair is written as `x`, a comma and `y`
with no space between, and every point is followed by one space; so with the
numbers `50` and `250` printed as `50` and `250`, the polyline
`AddPoint({50, 50}).AddPoint({250, 250})` has the points attribute
`50,50 250,250 `, where `svg_lib.cpp` has `50, 50 250, 250 `. -/
theorem Header_Polyline_Render_points (put_double : Double → String)
    (p : Header.Polyline) (os : String)
    (h50 : put_double (Double.ofInt 50) = "50")
    (h250 : put_double (Double.ofInt 250) = "250") :
    p.Render put_double os
      = os ++ "<polyline " ++ "points=\""
        ++ String.join
            (p.vertexes.map (fun v => put_double v.x ++ "," ++ put_double v.y ++ " "))
        ++ "\" " ++ p.toSvgObjectCoomonProp.Render put_double "" ++ "/>"
    ∧ header_polyline_50_250.GetVertexes put_double "" = "50,50 250,250 "
    ∧ header_polyline_50_250.Render put_double ""
      = "<polyline points=\"50,50 250,250 \" " ++
          ({} : Header.SvgObjectCoomonProp).Render put_double "" ++ "/>"
    ∧ polyline_50_250.GetVertexes = "50, 50 250, 250 " := by
  have key : ∀ (q : Header.Polyline) (o : String), q.Render put_double o
      = o ++ "<polyline " ++ "points=\""
        ++ String.join
            (q.vertexes.map (fun v => put_double v.x ++ "," ++ put_double v.y ++ " "))
        ++ "\" " ++ q.toSvgObjectCoomonProp.Render put_double "" ++ "/>" := by
    intro q o
    unfold Header.Polyline.Render
    simp only []
    rw [Header_SvgObjectCoomonProp_Render_append, Header_Polyline_GetVertexes_eq]
  have hv : header_polyline_50_250.GetVertexes put_double "" = "50,50 250,250 " := by
    simp only [header_polyline_50_250, Header.Polyline.GetVertexes, Header.Polyline.AddPoint,
      List.nil_append, List.foldl_cons, List.foldl_nil, List.singleton_append, h50, h250]
    decide
  have hj : String.join (header_polyline_50_250.vertexes.map
      (fun v => put_double v.x ++ "," ++ put_double v.y ++ " ")) = "50,50 250,250 " := by
    have e := Header_Polyline_GetVertexes_eq put_double header_polyline_50_250 ""
    rw [hv, String.empty_append] at e
    exact e.symm
  refine ⟨key p os, hv, ?_, by decide⟩
  rw [key, hj]
  simp only [String.append_assoc, String.empty_append]
  rfl

/-- The amended C13 with the numbers printed as `DoubleToString` prints them: `50`
and `250`, as the stream does. -/
theorem Header_Polyline_Render_points_witness :
    DoubleToString (Double.ofInt 50) = "50" ∧ DoubleToString (Double.ofInt 250) = "250"
    ∧ header_polyline_50_250.GetVertexes DoubleToString "" = "50,50 250,250 " :=
  ⟨by decide, by decide,
    (Header_Polyline_Render_points DoubleToString {} "" (by decide) (by decide)).2.1⟩

/-! ## Values are not validated (C17) -/

/-- C17, the code at the failing input: the radius `2147483648.0` is
integer-valued, and the circle renders it as `r="2147483648.000000"`, not as the
numeral of the integer, where the claim asks for `r="2147483648"`. -/
theorem Circle_large_radius_rendering :
    lit_2_pow_31.IsBinary64 ∧ lit_2_pow_31.Denotes 2147483648
    ∧ (({} : Circle).SetRadius lit_2_pow_31).Render ""
      = "<circle cx=\"0\" cy=\"0\" r=\"2147483648.000000\" fill=\"none\" stroke=\"none\" stroke-width=\"1\" />"
    ∧ (({} : Circle).SetRadius lit_2_pow_31).Render ""
      ≠ "<circle cx=\"0\" cy=\"0\" r=\"2147483648\" fill=\"none\" stroke=\"none\" stroke-width=\"1\" />" := by
  decide

/-- Where the conversion to `int` does not overflow no value is rejected or
normalised: for every integer-valued radius and stroke width within the range of
`int`, negative ones included, the setters store the values unchanged and the
circle renders them as the decimal numerals of the integers, a `-` first when
negative; `Circle{}.SetRadius(-5).SetStrokeWidth(-3)` renders `r="-5"` and
`stroke-width="-3"`. -/
theorem Circle_integer_values_verbatim (c : Circle) (r w : Double) (t u : Int)
    (hr : r.Denotes t) (hw : w.Denotes u) (ht : INT_MIN ≤ t ∧ t ≤ INT_MAX)
    (hu : INT_MIN ≤ u ∧ u ≤ INT_MAX) (os : String) :
    ((c.SetRadius r).SetStrokeWidth w)._radius = r
    ∧ ((c.SetRadius r).SetStrokeWidth w).stroke_width = w
    ∧ ((c.SetRadius r).SetStrokeWidth w).Render os
      = os ++ "<circle " ++ "cx=\"" ++ DoubleToString c._center.x ++ "\" "
        ++ "cy=\"" ++ DoubleToString c._center.y ++ "\" "
        ++ "r=\"" ++ ((if t < 0 then "-" else "") ++ Nat.repr t.natAbs) ++ "\" "
        ++ "fill=\"" ++ ColorToString c.fill_color ++ "\" "
        ++ "stroke=\"" ++ ColorToString c.stroke_color ++ "\" "
        ++ "stroke-width=\"" ++ ((if u < 0 then "-" else "") ++ Nat.repr u.natAbs) ++ "\" "
        ++ (match c.stroke_linecap with
            | some v => "stroke-linecap=\"" ++ v ++ "\" "
            | none => "")
        ++ (match c.stroke_linejoin with
            | some v => "stroke-linejoin=\"" ++ v ++ "\" "
            | none => "")
        ++ "/>"
    ∧ ((({} : Circle).SetRadius (Double.ofInt (-5))).SetStrokeWidth (Double.ofInt (-3))).Render ""
      = "<circle cx=\"0\" cy=\"0\" r=\"-5\" fill=\"none\" stroke=\"none\" stroke-width=\"-3\" />" := by
  have num : ∀ (x : Double) (k : Int), x.Denotes k → INT_MIN ≤ k ∧ k ≤ INT_MAX →
      DoubleToString x = (if k < 0 then "-" else "") ++ Nat.repr k.natAbs := by
    intro x k hx hk
    rw [DoubleToString_of_Denotes x k hx hk.1 hk.2]
    unfold to_string_int
    split
    · rfl
    · exact (String.empty_append _).symm
  refine ⟨rfl, rfl, ?_, by decide⟩
  rw [← num r t hr ht, ← num w u hw hu]
  show ((c.SetRadius r).SetStrokeWidth w).Render os = _
  unfold Circle.Render SvgObjectTemplate.Render Circle.SetStrokeWidth Circle.SetRadius
    SvgObjectTemplate.SetStrokeWidth
  simp only []
  cases c.stroke_linecap <;> cases c.stroke_linejoin <;>
    simp only [String.append_assoc, String.append_empty, String.empty_append]

/-- The circle `Circle{}.SetRadius(-5).SetStrokeWidth(-3)`. -/
theorem Circle_integer_values_verbatim_witness :
    (Double.ofInt (-5)).Denotes (-5) ∧ (Double.ofInt (-3)).Denotes (-3)
    ∧ ((({} : Circle).SetRadius (Double.ofInt (-5))).SetStrokeWidth (Double.ofInt (-3))).Render ""
      = "<circle cx=\"0\" cy=\"0\" r=\"-5\" fill=\"none\" stroke=\"none\" stroke-width=\"-3\" />" :=
  have w := Circle_integer_values_verbatim {} (Double.ofInt (-5)) (Double.ofInt (-3)) (-5) (-3)
    (by decide) (by decide) (by decide) (by decide) ""
  ⟨by decide, by decide, w.2.2.1.trans (by decide)⟩

/-! ## Colours as text (C19) -/

/-- Two texts split at the first occurrence of a character in the same way. -/
theorem append_cons_cancel (c : Char) : ∀ (l₁ l₂ r₁ r₂ : List Char), c ∉ l₁ → c ∉ l₂ →
    l₁ ++ c :: r₁ = l₂ ++ c :: r₂ → l₁ = l₂ ∧ r₁ = r₂ := by
  intro l₁
  induction l₁ with
  | nil =>
    intro l₂ r₁ r₂ _ h₂ h
    cases l₂ with
    | nil => exact ⟨rfl, by simpa using h⟩
    | cons d l₂ =>
      simp only [List.nil_append, List.cons_append, List.cons.injEq] at h
      exact absurd (h.1 ▸ List.mem_cons_self _ _) h₂
  | cons a l₁ ih =>
    intro l₂ r₁ r₂ h₁ h₂ h
    cases l₂ with
    | nil =>
      simp only [List.nil_append, List.cons_append, List.cons.injEq] at h
      exact absurd (h.1 ▸ List.mem_cons_self _ _) h₁
    | cons d l₂ =>
      simp only [List.cons_append, List.cons.injEq] at h
      have h₁' : c ∉ l₁ := fun hm => h₁ (List.mem_cons_of_mem _ hm)
      have h₂' : c ∉ l₂ := fun hm => h₂ (List.mem_cons_of_mem _ hm)
      obtain ⟨e₁, e₂⟩ := ih l₂ r₁ r₂ h₁' h₂' h.2
      exact ⟨by rw [h.1, e₁], e₂⟩

/-- Different numbers have different numerals. -/
theorem repr_injective (a b : Nat) (h : Nat.repr a = Nat.repr b) : a = b := by
  have ha := (repr_isDecimalNumeral a).2.2.1
  have hb := (repr_isDecimalNumeral b).2.2.1
  rw [h] at ha
  exact ha.symm.trans hb

theorem ColorToString_ofRgb_data (c : Rgb) :
    (ColorToString (Color.ofRgb c)).data
      = ['r', 'g', 'b', '('] ++ ((Nat.repr c.red.val).data ++ ',' ::
          ((Nat.repr c.green.val).data ++ ',' :: ((Nat.repr c.blue.val).data ++ [')']))) := by
  simp only [ColorToString, Color.ofRgb, to_string_int_ofNat, String.data_append,
    List.append_assoc]
  rfl

/-- C19: on the `Rgb` alternative `ColorToString` is injective: equal texts force
equal red, green and blue channels; on `Color` as a whole it is not: the string
colour `rgb(1,2,3)` and the colour of `Rgb{1,2,3}` are different values with the
same text. -/
theorem ColorToString_rgb_injective (c₁ c₂ : Rgb)
    (h : ColorToString (Color.ofRgb c₁) = ColorToString (Color.ofRgb c₂)) :
    (c₁.red = c₂.red ∧ c₁.green = c₂.green ∧ c₁.blue = c₂.blue)
    ∧ Color.ofString "rgb(1,2,3)" ≠ Color.ofRgb ⟨1, 2, 3⟩
    ∧ ColorToString (Color.ofString "rgb(1,2,3)") = ColorToString (Color.ofRgb ⟨1, 2, 3⟩) := by
  refine ⟨?_, by decide, by decide⟩
  have hd := congrArg String.data h
  rw [ColorToString_ofRgb_data, ColorToString_ofRgb_data] at hd
  have h1 := List.append_cancel_left hd
  have nc : ∀ n : Nat, ',' ∉ (Nat.repr n).data := fun n => repr_no_char n ',' (by decide)
  obtain ⟨er, h2⟩ := append_cons_cancel ',' _ _ _ _ (nc _) (nc _) h1
  obtain ⟨eg, h3⟩ := append_cons_cancel ',' _ _ _ _ (nc _) (nc _) h2
  have eb := List.append_cancel_right h3
  exact ⟨Fin.ext (repr_injective _ _ (String.ext er)),
    Fin.ext (repr_injective _ _ (String.ext eg)),
    Fin.ext (repr_injective _ _ (String.ext eb))⟩

/-- C19 at `Rgb{1,2,3}`. -/
theorem ColorToString_rgb_injective_witness :
    ColorToString (Color.ofRgb ⟨1, 2, 3⟩) = ColorToString (Color.ofRgb ⟨1, 2, 3⟩)
    ∧ ((1 : Fin 256) = 1 ∧ (2 : Fin 256) = 2 ∧ (3 : Fin 256) = 3) :=
  ⟨rfl, (ColorToString_rgb_injective ⟨1, 2, 3⟩ ⟨1, 2, 3⟩ rfl).1⟩

end Svg
